import Mathlib

/-!
Verification of the Home_loans_RAG_React loan-processing pipeline.

Shallow embedding of the repository sources:
  src/backend/agent/eligibility_agent.py
  src/backend/agent/document_validator_agent.py
  src/agent/property_valuation_agent.py
  src/backend/agent/loan_recommender_agent.py
  src/backend/orchestration_agent.py

Python numbers are modelled as rationals, Python exceptions as Except, and
dictionary fields that may be absent as Option.  External collaborators
(AWS Textract responses, the regex engine, the pickled sklearn model, the
credit-bureau simulation, the Bedrock LLM call) are parameters (oracles) of
the embedding; everything downstream of those boundaries is translated from
the source.
-/

namespace HomeLoan

/- ===================== Python-semantics helpers ===================== -/

/-- Python division on numbers: raises ZeroDivisionError on a zero divisor. -/
def pyDiv (a b : ℚ) : Except String ℚ :=
  if b = 0 then .error "ZeroDivisionError: division by zero" else .ok (a / b)

/-- Python truthiness of a string: non-empty strings are truthy. -/
def pyTruthyStr (s : String) : Bool := !s.isEmpty

/-- Python truthiness of an optional string value (None and the empty string
are falsy). -/
def pyTruthyOptStr : Option String → Bool
  | none => false
  | some s => !s.isEmpty

/-- Python str() of a value that may be None (used when a possibly-missing
name is formatted into a regex pattern). -/
def pyStrOpt : Option String → String
  | none => "None"
  | some s => s

/-- Python int() applied to a float: truncation toward zero. -/
def pyTrunc (q : ℚ) : ℤ := if q < 0 then -((-q).floor) else q.floor

/-- Python str.lower() on ASCII text (modelled character-wise so that it
computes by kernel reduction). -/
def pyLower (s : String) : String := String.mk (s.toList.map Char.toLower)

/-- Python str.upper() on ASCII text. -/
def pyUpper (s : String) : String := String.mk (s.toList.map Char.toUpper)

instance {e a : Type} [DecidableEq e] [DecidableEq a] : DecidableEq (Except e a) := fun x y =>
  match x, y with
  | .ok u, .ok v => decidable_of_iff (u = v) (by simp)
  | .error u, .error v => decidable_of_iff (u = v) (by simp)
  | .ok _, .error _ => isFalse (by simp)
  | .error _, .ok _ => isFalse (by simp)

/- ===================== Eligibility agent =====================
   src/backend/agent/eligibility_agent.py -/

/-- The property_details keys read by predict (absent keys take the source
defaults; values are assumed well-typed, so the str()/float()/int()
conversions in predict cannot raise). -/
structure PropertyDetails where
  city : Option String := none
  area : Option String := none
  property_type : Option String := none
  size_sqft : Option ℚ := none
  age_years : Option ℤ := none
  floor_number : Option ℤ := none
  condition : Option String := none
  amenities : Option String := none
deriving DecidableEq

/-- The fields of the applicant-data dict read by Applicant.__init__ and by
the loan recommender.  A field is none when the key is absent. -/
structure ApplicantFields where
  full_name : Option String := none
  monthly_income : Option ℚ := none
  loan_amount : Option ℚ := none
  property_value : Option ℚ := none
  credit_score : Option ℚ := none
  employment_status : Option String := none
  existing_loans : Option ℚ := none
  /-- The applicant_name key checked by the document-validator node; the
  outer none means the key is absent, some none a key holding Python None. -/
  applicant_name : Option (Option String) := none
  company_name : Option String := none
  property_details : Option PropertyDetails := none
deriving DecidableEq

/-- Applicant (eligibility_agent.py, class Applicant). -/
structure Applicant where
  name : Option String
  income : ℚ
  loan_amount : ℚ
  property_value : ℚ
  credit_score : ℚ
  employment_status : Option String
  existing_debt : ℚ
deriving DecidableEq

/-- Applicant.__init__: reads the data dict with the source defaults. -/
def Applicant.ofData (d : ApplicantFields) : Applicant :=
  { name := d.full_name
    income := d.monthly_income.getD 10000
    loan_amount := d.loan_amount.getD 0
    property_value := d.property_value.getD 10000000
    credit_score := d.credit_score.getD 720
    employment_status := d.employment_status
    existing_debt := d.existing_loans.getD 0 }

/-- EligibilityAgent rule set. -/
structure Rules where
  max_ltv : ℚ
  min_credit_score : ℚ
  allowed_employment : List String
  max_dti : ℚ
  min_income : ℚ

/-- The default rules installed by EligibilityAgent.__init__. -/
def defaultRules : Rules :=
  { max_ltv := 7/10
    min_credit_score := 700
    allowed_employment := ["salaried", "self-employed"]
    max_dti := 1/2
    min_income := 15000 }

/-- EligibilityAgent.calculate_ltv (loan_amount / property_value). -/
def calculate_ltv (a : Applicant) : Except String ℚ :=
  pyDiv a.loan_amount a.property_value

/-- EligibilityAgent.calculate_dti (existing_debt / income). -/
def calculate_dti (a : Applicant) : Except String ℚ :=
  pyDiv a.existing_debt a.income

/-- The per-rule breakdown dict built by check_eligibility.  Four of the five
entries are the STRINGS Yes or No; only the employment entry is a boolean. -/
structure EligChecks where
  ltv_check : String
  credit_score_check : String
  income_check : String
  employment_check : Bool
  dti_check : String
deriving DecidableEq

/-- EligibilityAgent.check_eligibility.  The final flag is Python
all(checks.values()): it folds Python truthiness over the dict values in
insertion order, and the strings Yes and No are BOTH truthy. -/
def check_eligibility (rules : Rules) (a : Applicant) :
    Except String (Bool × EligChecks) := do
  let ltv ← calculate_ltv a
  let ltv_check := if ltv ≤ rules.max_ltv then "Yes" else "No"
  let credit_score_check := if a.credit_score ≥ rules.min_credit_score then "Yes" else "No"
  let income_check := if a.income ≥ rules.min_income then "Yes" else "No"
  let employment_check ←
    match a.employment_status with
    | none => Except.error "AttributeError: NoneType object has no attribute lower"
    | some s => Except.ok (rules.allowed_employment.contains (pyLower s))
  let dti ← calculate_dti a
  let dti_check := if dti ≤ rules.max_dti then "Yes" else "No"
  let checks : EligChecks :=
    { ltv_check := ltv_check
      credit_score_check := credit_score_check
      income_check := income_check
      employment_check := employment_check
      dti_check := dti_check }
  let is_eligible :=
    pyTruthyStr ltv_check && pyTruthyStr credit_score_check &&
    pyTruthyStr income_check && employment_check && pyTruthyStr dti_check
  Except.ok (is_eligible, checks)

/- ===================== Document validator agent =====================
   src/backend/agent/document_validator_agent.py -/

/-- A relationship entry of a Textract block ("Type" and "Ids"). -/
structure Relationship where
  relType : String
  ids : List String
deriving DecidableEq

/-- The Textract block fields read by the validator: "Id", "BlockType",
"EntityTypes" (may be absent), "Relationships" (may be absent), "Text". -/
structure Block where
  id : String
  blockType : String
  entityTypes : Option (List String) := none
  relationships : Option (List Relationship) := none
  text : String := ""
deriving DecidableEq

/-- Association-list update with Python dict semantics: overwrite in place if
the key exists, else append (insertion order preserved). -/
def alistSet {a : Type} : List (String × a) → String → a → List (String × a)
  | [], k, v => [(k, v)]
  | (k0, v0) :: rest, k, v =>
    if k0 = k then (k0, v) :: rest else (k0, v0) :: alistSet rest k v

/-- Association-list lookup (Python dict [] / .get). -/
def alistGet {a : Type} : List (String × a) → String → Option a
  | [], _ => none
  | (k0, v0) :: rest, k => if k0 = k then some v0 else alistGet rest k

/-- First-occurrence deduplication of a list of strings (models collecting
values into a Python set, which the source only queries for size and
membership). -/
def dedupStr (l : List String) : List String :=
  l.foldl (fun acc x => if x ∈ acc then acc else acc ++ [x]) []

/-- The external text-processing primitives the validator calls: the regex
engine (re.search, returning match.group(0)), Python int()/float() parsing,
strptime (returning the year on success), the current year, and the Textract
call _analyze (which catches its own errors and returns an empty block
list).  They are oracles of the embedding. -/
structure TextEnv where
  search : String → String → Option String
  parseInt : String → Except String ℤ
  parseFloat : String → Except String ℚ
  parseDateYear : String → Option ℤ
  nowYear : ℤ
  analyze : String → List Block

/-- _find_text_with_regex: scan LINE blocks, return the first match. -/
def find_text_with_regex (search : String → String → Option String)
    (blocks : List Block) (pattern : String) : Option String :=
  match blocks with
  | [] => none
  | b :: rest =>
    if b.blockType = "LINE" then
      match search pattern b.text with
      | some m => some m
      | none => find_text_with_regex search rest pattern
    else find_text_with_regex search rest pattern

/-- The character class kept by the key-cleaning regex sub in
_parse_textract_kvs (alphanumerics, whitespace and the slash). -/
def cleanKeyChar (c : Char) : Bool := c.isAlphanum || c = '/' || c.isWhitespace

/-- re.sub removing every character outside the kept class, then strip. -/
def cleanKey (s : String) : String :=
  (String.mk (s.toList.filter cleanKeyChar)).trim

/-- Text of the CHILD words of a block under a block map (space-joined).
A missing id raises KeyError. -/
def childText (blockMap : List (String × Block)) (rels : List Relationship) :
    Except String String := do
  let mut out : List String := []
  for rel in rels do
    if rel.relType = "CHILD" then
      let mut words : List String := []
      for wid in rel.ids do
        match alistGet blockMap wid with
        | none => throw ("KeyError: " ++ wid)
        | some b => words := words ++ [b.text]
      out := words
  return String.intercalate " " out

/-- The VALUE side of a key block: for each VALUE relationship id, append the
space-joined CHILD text of that value block plus a trailing space. -/
def valueText (blockMap : List (String × Block)) (rels : List Relationship) :
    Except String String := do
  let mut out : String := ""
  for rel in rels do
    if rel.relType = "VALUE" then
      for vid in rel.ids do
        match alistGet blockMap vid with
        | none => throw ("KeyError: " ++ vid)
        | some vb =>
          match vb.relationships with
          | none => pure ()
          | some vrels =>
            for crel in vrels do
              if crel.relType = "CHILD" then
                let mut words : List String := []
                for wid in crel.ids do
                  match alistGet blockMap wid with
                  | none => throw ("KeyError: " ++ wid)
                  | some b => words := words ++ [b.text]
                out := out ++ String.intercalate " " words ++ " "
  return out

/-- _parse_textract_kvs: build the block map, select KEY blocks (a block with
EntityTypes absent makes the membership test raise TypeError), extract
key/value text and store cleaned pairs. -/
def parse_textract_kvs (blocks : List Block) :
    Except String (List (String × String)) := do
  let blockMap := blocks.foldl (fun m b => alistSet m b.id b) []
  let mut keyBlocks : List Block := []
  for b in blocks do
    if b.blockType = "KEY_VALUE_SET" then
      match b.entityTypes with
      | none => throw "TypeError: argument of type NoneType is not iterable"
      | some ets => if "KEY" ∈ ets then keyBlocks := keyBlocks ++ [b]
  let mut kvs : List (String × String) := []
  for kb in keyBlocks do
    let keyText ←
      match kb.relationships with
      | none => pure ""
      | some rels => childText blockMap rels
    let valText ←
      match kb.relationships with
      | none => pure ""
      | some rels => valueText blockMap rels
    if pyTruthyStr keyText && pyTruthyStr valText then
      kvs := alistSet kvs (cleanKey keyText) valText.trim
  return kvs

/-- The fields of the details dict read by the extractors. -/
structure DocDetails where
  applicant_name : Option String := none
  company_name : Option String := none
deriving DecidableEq

/-- Regex pattern for a PAN number. -/
def panPattern : String := "[A-Z]\x7b5\x7d[0-9]\x7b4\x7d[A-Z]\x7b1\x7d"

/-- Regex pattern for a date of birth. -/
def dobPattern : String := "\\d\x7b2\x7d/\\d\x7b2\x7d/\\d\x7b4\x7d"

/-- The word-bounded name pattern built with str.format (a missing name
formats as the text None). -/
def nameBound (name : Option String) : String := "\\b" ++ pyStrOpt name ++ "\\b"

/-- Extraction result for a PAN card. -/
structure PanData where
  pan_number : Option String
  name : Option String
  date_of_birth : Option String
deriving DecidableEq

/-- _validate_pan_card. -/
def validate_pan_card (search : String → String → Option String)
    (blocks : List Block) (details : DocDetails) : PanData :=
  { pan_number := find_text_with_regex search blocks panPattern
    name := find_text_with_regex search blocks (nameBound details.applicant_name)
    date_of_birth := find_text_with_regex search blocks dobPattern }

/-- Extraction result for an Aadhaar card. -/
structure AadhaarData where
  name : Option String
  date_of_birth : Option String
deriving DecidableEq

/-- _validate_aadhaar_card: calls .upper() on the regex result, which raises
AttributeError when no line matched. -/
def validate_aadhaar_card (search : String → String → Option String)
    (blocks : List Block) (details : DocDetails) : Except String AadhaarData := do
  let name ←
    match find_text_with_regex search blocks (nameBound details.applicant_name) with
    | none => throw "AttributeError: NoneType object has no attribute upper"
    | some n => pure (pyUpper n)
  return { name := some name
           date_of_birth := find_text_with_regex search blocks dobPattern }

/-- Extraction result for a company id card. -/
structure CompanyIdData where
  name : Option String
  company : Option String
  is_valid : Bool
deriving DecidableEq

/-- _validate_company_id: same .upper() hazard on the name; validity needs a
truthy year match, int() parse and a comparison against the current year. -/
def validate_company_id (env : TextEnv) (blocks : List Block)
    (details : DocDetails) : Except String CompanyIdData := do
  let name ←
    match find_text_with_regex env.search blocks (nameBound details.applicant_name) with
    | none => throw "AttributeError: NoneType object has no attribute upper"
    | some n => pure (pyUpper n)
  let company := find_text_with_regex env.search blocks (nameBound details.company_name)
  let _valid_until := find_text_with_regex env.search blocks "Valid upto: \\d\x7b2\x7d- Sep"
  let validYear := find_text_with_regex env.search blocks "2029"
  let isValid ←
    match validYear with
    | none => pure false
    | some y =>
      if y.isEmpty then pure false
      else do
        let n ← env.parseInt y
        pure (decide (n > env.nowYear))
  return { name := some name, company := company, is_valid := isValid }

/-- Extraction result for a payslip. -/
structure PayslipData where
  name : Option String
  pan_number : Option String
  gross_monthly_salary : Option ℚ
  is_recent : Bool
deriving DecidableEq

/-- kvs.get(key, default). -/
def kvsGetD (kvs : List (String × String)) (k : String) (default : Option String) :
    Option String :=
  match alistGet kvs k with
  | some v => some v
  | none => default

/-- _validate_payslip.  float() on a non-numeric salary string propagates;
the date parse and index errors around the pay period are caught and leave
is_recent false. -/
def validate_payslip (env : TextEnv) (blocks : List Block)
    (details : DocDetails) : Except String PayslipData := do
  let kvs ← parse_textract_kvs blocks
  let name := kvsGetD kvs "Name"
    (find_text_with_regex env.search blocks (nameBound details.applicant_name))
  let pan := kvsGetD kvs "PF / Pension No"
    (find_text_with_regex env.search blocks panPattern)
  let grossStr := kvsGetD kvs "Total Standard Salary"
    (find_text_with_regex env.search blocks "130,030.00")
  let gross ←
    match grossStr with
    | none => pure none
    | some s =>
      if s.isEmpty then pure none
      else do
        let q ← env.parseFloat (s.replace "," "")
        pure (some q)
  let payPeriod := find_text_with_regex env.search blocks "01.06.2025 to 30.06.2025"
  let isRecent :=
    match payPeriod with
    | none => false
    | some s =>
      match (s.splitOn " to ").get? 1 with
      | none => false
      | some part =>
        match env.parseDateYear part with
        | none => false
        | some y => decide (y ≥ 2025)
  return { name := name, pan_number := pan, gross_monthly_salary := gross
           is_recent := isRecent }

/-- One entry of the extracted_data dict. -/
inductive ExtractedEntry
  | panE (d : PanData)
  | aadhaarE (d : AadhaarData)
  | companyE (d : CompanyIdData)
  | payslipE (d : PayslipData)
  | errorE (message : String)
deriving DecidableEq

/-- data.get(name) over an extracted entry. -/
def entryName : ExtractedEntry → Option String
  | .panE d => d.name
  | .aadhaarE d => d.name
  | .companyE d => d.name
  | .payslipE d => d.name
  | .errorE _ => none

/-- data.get(pan_number) over an extracted entry. -/
def entryPan : ExtractedEntry → Option String
  | .panE d => d.pan_number
  | .payslipE d => d.pan_number
  | _ => none

/-- One element of the documents list ({"type": ..., "path": ...}). -/
structure DocumentItem where
  docType : String
  path : String
deriving DecidableEq

/-- One UI-ready per-document result appended by run. -/
structure DocumentResult where
  document_type : String
  status : String
  message : String
deriving DecidableEq

/-- One entry of the consistency-check report. -/
structure CheckEntry where
  check : String
  status : String
  reason : Option String := none
  value : Option (Option String) := none
deriving DecidableEq

/-- The validation report ({"overall_status": ..., "checks": [...]}). -/
structure ValidationReport where
  overall_status : String
  checks : List CheckEntry
deriving DecidableEq

/-- The consolidated applicant details built at the end of run. -/
structure ConsolidatedDetails where
  applicant_name : Option String
  pan_number : Option String
  date_of_birth : Option String
  company_name : Option String
  gross_monthly_salary : Option ℚ
deriving DecidableEq

/-- The final dict returned by run. -/
structure RunOutput where
  consolidated_applicant_details : ConsolidatedDetails
  validation_report : ValidationReport
  raw_extracted_data : List (String × ExtractedEntry)
  document_results : List DocumentResult
deriving DecidableEq

/-- Python a or b over optional strings (first operand wins when truthy). -/
def pyOrStr (a b : Option String) : Option String :=
  match a with
  | some s => if s.isEmpty then b else some s
  | none => b

/-- The per-document extraction loop of run.  Returns the extracted_data
dict and the document_results list; an exception inside an extractor (or the
KeyError on an unrecognised type with non-empty blocks) propagates. -/
def runExtractLoop (env : TextEnv) (details : DocDetails) :
    List DocumentItem → List (String × ExtractedEntry) → List DocumentResult →
    Except String (List (String × ExtractedEntry) × List DocumentResult)
  | [], extracted, results => .ok (extracted, results)
  | d :: rest, extracted, results => do
    let blocks := env.analyze d.path
    if blocks = [] then
      let extracted := alistSet extracted d.docType
        (.errorE ("Failed to analyze document at " ++ d.path ++ "."))
      let results := results ++
        [{ document_type := d.docType, status := "Failed"
           message := "Failed to analyze document" }]
      runExtractLoop env details rest extracted results
    else do
      let extracted ←
        if d.docType = "PAN" then
          pure (alistSet extracted d.docType (.panE (validate_pan_card env.search blocks details)))
        else if d.docType = "Aadhaar" then do
          let a ← validate_aadhaar_card env.search blocks details
          pure (alistSet extracted d.docType (.aadhaarE a))
        else if d.docType = "CompanyID" then do
          let c ← validate_company_id env blocks details
          pure (alistSet extracted d.docType (.companyE c))
        else if d.docType = "Payslip" then do
          let p ← validate_payslip env blocks details
          pure (alistSet extracted d.docType (.payslipE p))
        else
          pure extracted
      let entry ←
        match alistGet extracted d.docType with
        | none => throw ("KeyError: " ++ d.docType)
        | some e => pure e
      let results := results ++
        (match entry with
         | .errorE m =>
           [{ document_type := d.docType, status := "Failed", message := m }]
         | _ =>
           [{ document_type := d.docType, status := "Success"
              message := "Document validated successfully" }])
      runExtractLoop env details rest extracted results

/-- DocumentValidatorAgent.run: extraction loop, consistency checks and the
consolidated output.  The mismatch reasons render the offending values with
a fixed separator instead of the Python set repr (the source only branches
on the set sizes). -/
def docRun (env : TextEnv) (documents : List DocumentItem) (details : DocDetails) :
    Except String RunOutput := do
  let (extracted, documentResults) ← runExtractLoop env details documents [] []
  let values := extracted.map (fun kv => kv.2)
  let allNames := dedupStr
    (((values.filterMap entryName).filter (fun s => !s.isEmpty)).map pyUpper)
  let allPans := dedupStr
    ((values.filterMap entryPan).filter (fun s => !s.isEmpty))
  let nameCheck : CheckEntry :=
    if allNames.length > 1 then
      { check := "Name Consistency", status := "Failure"
        reason := some ("Mismatched names found: " ++ String.intercalate ", " allNames) }
    else
      { check := "Name Consistency", status := "Success"
        value := some allNames.head? }
  let panCheck : CheckEntry :=
    if allPans.length > 1 then
      { check := "PAN Consistency", status := "Failure"
        reason := some ("Mismatched PAN numbers found: " ++ String.intercalate ", " allPans) }
    else
      { check := "PAN Consistency", status := "Success"
        value := some allPans.head? }
  let companyValid : Bool :=
    match alistGet extracted "CompanyID" with
    | some (.companyE c) => c.is_valid
    | _ => false
  let companyCheck : CheckEntry :=
    if companyValid then
      { check := "Company ID Validity", status := "Success" }
    else
      { check := "Company ID Validity", status := "Failure"
        reason := some "Company ID card is expired or validity date could not be read." }
  let payslipRecent : Bool :=
    match alistGet extracted "Payslip" with
    | some (.payslipE p) => p.is_recent
    | _ => false
  let payslipCheck : CheckEntry :=
    if payslipRecent then
      { check := "Payslip Recency", status := "Success" }
    else
      { check := "Payslip Recency", status := "Warning"
        reason := some "Payslip is not recent or date could not be parsed." }
  let overall :=
    if allNames.length > 1 || allPans.length > 1 || !companyValid then "Failure"
    else "Success"
  let panDob :=
    match alistGet extracted "PAN" with
    | some (.panE p) => p.date_of_birth
    | _ => none
  let aadhaarDob :=
    match alistGet extracted "Aadhaar" with
    | some (.aadhaarE a) => a.date_of_birth
    | _ => none
  let consolidated : ConsolidatedDetails :=
    { applicant_name := if allNames.length = 1 then allNames.head? else none
      pan_number := if allPans.length = 1 then allPans.head? else none
      date_of_birth := pyOrStr panDob aadhaarDob
      company_name :=
        match alistGet extracted "CompanyID" with
        | some (.companyE c) => c.company
        | _ => none
      gross_monthly_salary :=
        match alistGet extracted "Payslip" with
        | some (.payslipE p) => p.gross_monthly_salary
        | _ => none }
  return { consolidated_applicant_details := consolidated
           validation_report :=
             { overall_status := overall
               checks := [nameCheck, panCheck, companyCheck, payslipCheck] }
           raw_extracted_data := extracted
           document_results := documentResults }

/-- The application_data argument of validate_documents: the documents key
(none when absent) and the details dict. -/
structure ApplicationData where
  documents : Option (List DocumentItem)
  details : DocDetails

/-- The dict returned by validate_documents. -/
inductive ValidateDocumentsResult
  /-- The error dict, with its message: missing documents, or an exception
  caught while running the validation. -/
  | errorRes (message : String)
  /-- The success dict: top-level status (success or partial_success
  depending on the overall report status) plus the run output. -/
  | okRes (status : String) (r : RunOutput)
deriving DecidableEq

/-- DocumentValidatorAgent.validate_documents. -/
def validate_documents (env : TextEnv) (app : ApplicationData) :
    ValidateDocumentsResult :=
  match app.documents with
  | none => .errorRes "Required documents not provided"
  | some [] => .errorRes "Required documents not provided"
  | some docs =>
    match docRun env docs app.details with
    | .error e => .errorRes ("Document validation failed: " ++ e)
    | .ok out =>
      .okRes
        (if out.validation_report.overall_status = "Success" then "success"
         else "partial_success")
        out

/- ===================== Property valuation agent =====================
   src/agent/property_valuation_agent.py -/

/-- The property_data dict prepared by predict (every key present). -/
structure PropertyData where
  city : String
  area : String
  property_type : String
  size_sqft : ℚ
  age_years : ℤ
  floor_number : ℤ
  condition : String
  amenities : String
deriving DecidableEq

/-- The data-preparation step at the top of predict. -/
def prepare_property_data (pd : PropertyDetails) : PropertyData :=
  { city := pd.city.getD ""
    area := pd.area.getD ""
    property_type := pd.property_type.getD ""
    size_sqft := pd.size_sqft.getD 0
    age_years := pd.age_years.getD 0
    floor_number := pd.floor_number.getD 0
    condition := pd.condition.getD ""
    amenities := pd.amenities.getD "" }

/-- The result dict of predict_property_value / rule_based_valuation. -/
structure ValuationOut where
  estimated_property_value : ℤ
  price_per_sqft : ℤ
  confidence_score : ℚ
  valuation_method : String
  model_accuracy : Option ℚ
deriving DecidableEq

/-- The city_prices table of rule_based_valuation (lookup of the lowercased
city with the default fallback). -/
def city_base_price (city : String) : ℚ :=
  if city = "mumbai" then 20000
  else if city = "delhi" then 15000
  else if city = "bangalore" then 12000
  else if city = "hyderabad" then 10000
  else if city = "chennai" then 9000
  else if city = "pune" then 8000
  else if city = "rajahmundry" then 5000
  else 10000

/-- The type_multipliers table (lowercased lookup, default 1.0). -/
def type_multiplier (t : String) : ℚ :=
  if t = "apartment" then 1
  else if t = "villa" then 3/2
  else if t = "plot" then 7/10
  else if t = "penthouse" then 2
  else if t = "studio" then 4/5
  else 1

/-- PropertyValuationAgent.rule_based_valuation.  With a typed PropertyData
the guarded float()/int() conversions cannot raise, but the price-per-sqft
division raises ZeroDivisionError when size_sqft is zero. -/
def rule_based_valuation (p : PropertyData) : Except String ValuationOut :=
  let basePrice := city_base_price (pyLower p.city)
  let typeMult := type_multiplier (pyLower p.property_type)
  let ageAdjustment := max (7/10 : ℚ) (1 - p.age_years * (1/100))
  let floorAdjustment : ℚ :=
    if p.floor_number > 0 then 1 + p.floor_number * (1/50) else 9/10
  let estimatedValue := basePrice * p.size_sqft * typeMult * ageAdjustment * floorAdjustment
  if p.size_sqft = 0 then
    .error "ZeroDivisionError: float division by zero"
  else
    .ok { estimated_property_value := pyTrunc estimatedValue
          price_per_sqft := pyTrunc (estimatedValue / p.size_sqft)
          confidence_score := 3/4
          valuation_method := "Rule-Based"
          model_accuracy := none }

/-- PropertyValuationAgent.calculate_ml_confidence. -/
def calculate_ml_confidence (p : PropertyData) : ℚ :=
  let c : ℚ := 8/10
  let c := if p.size_sqft > 0 then c + 1/10 else c
  let c := if pyTruthyStr p.city && pyTruthyStr p.area then c + 1/20 else c
  min c (19/20)

/-- The ML-model state of the agent: predictVal is some exactly when
is_model_trained holds and both the pickled model and scaler are loaded; the
function itself (feature encoding, scaling and RandomForest predict on the
external sklearn objects) is an oracle that may raise. -/
structure MLState where
  predictVal : Option (PropertyData → Except String ℚ)
  training_accuracy : Option ℚ

/-- PropertyValuationAgent.get_model_accuracy. -/
def get_model_accuracy (ml : MLState) : ℚ :=
  ml.training_accuracy.getD (17/20)

/-- PropertyValuationAgent.predict_property_value: try the ML path when the
model is available, fall back to the rule-based valuation both when it is
not and when anything in the try block raises (in the latter case a second
rule-based failure propagates). -/
def predict_property_value (ml : MLState) (p : PropertyData) :
    Except String ValuationOut :=
  let attempt : Except String ValuationOut :=
    match ml.predictVal with
    | some f =>
      match f p with
      | .error e => .error e
      | .ok v =>
        if p.size_sqft = 0 then .error "ZeroDivisionError: float division by zero"
        else
          .ok { estimated_property_value := pyTrunc v
                price_per_sqft := pyTrunc (v / p.size_sqft)
                confidence_score := calculate_ml_confidence p
                valuation_method := "ML Model"
                model_accuracy := some (get_model_accuracy ml) }
    | none => rule_based_valuation p
  match attempt with
  | .ok r => .ok r
  | .error _ => rule_based_valuation p

/-- The dict returned by predict: a success dict embedding the valuation and
the prepared data, or the error dict from the outer except handler. -/
inductive PredictResult
  | success (r : ValuationOut) (property_data : PropertyData)
  | error (message : String)
deriving DecidableEq

/-- PropertyValuationAgent.predict. -/
def predict (ml : MLState) (pd : PropertyDetails) : PredictResult :=
  let p := prepare_property_data pd
  match predict_property_value ml p with
  | .ok r => .success r p
  | .error e => .error ("Property valuation failed: " ++ e)

/- ===================== Loan recommender agent =====================
   src/backend/agent/loan_recommender_agent.py -/

/-- One parsed row of the markdown loan-options table. -/
structure LoanOption where
  option : String
  loan_amount : String
  interest_rate : String
  tenure : String
  monthly_emi : String
  eligibility : String
deriving DecidableEq

/-- extract_loan_options: keep non-blank trimmed lines, take table rows that
start with a pipe and are not separator rows, split off the outer pipes and
keep rows with at least six cells. -/
def extract_loan_options (markdownText : String) : List LoanOption :=
  let lines := ((markdownText.splitOn "\n").map String.trim).filter (fun l => !l.isEmpty)
  lines.foldl (fun acc line =>
    if line.startsWith "|" && !line.startsWith "|---" then
      let parts := (((line.splitOn "|").drop 1).dropLast).map String.trim
      if parts.length ≥ 6 then
        acc ++ [{ option := parts.getD 0 "", loan_amount := parts.getD 1 ""
                  interest_rate := parts.getD 2 "", tenure := parts.getD 3 ""
                  monthly_emi := parts.getD 4 "", eligibility := parts.getD 5 "" }]
      else acc
    else acc) []

/-- The loan_recommendation value set by the node on API success. -/
structure LoanRecommendation where
  text : String
  table : List LoanOption
deriving DecidableEq

/-- The state keys loan_recommender_node may set. -/
structure RecNodeOut where
  loan_recommendation : Option LoanRecommendation
  error : Option String
deriving DecidableEq

/-- loan_recommender_node.  The Bedrock call is the recApi oracle (the model
response text, or the exception message of a failed call).  The
high-income-low-credit test compares a possibly missing income, but only
after credit_score < 600 short-circuits; a missing income then raises
TypeError out of the node. -/
def loan_recommender_node (recApi : Except String String)
    (data : Option ApplicantFields) : Except String RecNodeOut := do
  match data with
  | none =>
    return { loan_recommendation := none
             error := some "Missing applicant_data in state" }
  | some d =>
    let credit := d.credit_score.getD 700
    let _highIncomeLowCredit ←
      if credit < 600 then
        match d.monthly_income with
        | none => throw "TypeError: not supported between instances of NoneType and int"
        | some inc => pure (decide (inc > 200000))
      else pure false
    match recApi with
    | .ok text =>
      return { loan_recommendation :=
                 some { text := text.trim, table := extract_loan_options text }
               error := none }
    | .error e =>
      return { loan_recommendation := none
               error := some ("Claude API error: " ++ e) }

/- ===================== Orchestrator =====================
   src/backend/orchestration_agent.py -/

/-- The credit-score agent result as seen by the orchestrator.  The agent
always returns a non-empty dict whose status key is error or completed; the
rest of its payload is produced by the randomised credit-bureau simulation
(an external collaborator) and is never read by the orchestrator. -/
structure CreditOut where
  status : String
deriving DecidableEq

/-- The document_validation_result channel value (a non-empty dict). -/
inductive DocSlotVal
  /-- The dict returned by validate_documents, possibly extended by the
  name-match postprocess of _run_document_validator. -/
  | res (r : ValidateDocumentsResult)
  /-- The except-path dict with status error and its message. -/
  | errorDict (message : String)
deriving DecidableEq

/-- The credit_score_result channel value. -/
inductive CreditSlotVal
  | res (r : CreditOut)
  | errorDict (message : String)
deriving DecidableEq

/-- The property_valuation_result channel value. -/
inductive PropSlotVal
  | res (r : PredictResult)
  | errorDict (message : String)
deriving DecidableEq

/-- The eligibility_result channel value: either the payload dict built by
_run_eligibility_agent (which has NO status key) or the error dict. -/
inductive EligSlotVal
  | payload (is_eligible : Option Bool) (checks : Option EligChecks)
      (applicant_name : Option String)
  | errorDict (message : String)
deriving DecidableEq

/-- The approval_recommendation channel value. -/
inductive RecSlotVal
  /-- {"recommendation": ..., "table": ..., "status": "success"}. -/
  | success (recommendation : String) (table : List LoanOption)
  | errorDict (message : String)
deriving DecidableEq

/-- WorkflowState (the TypedDict): the channels of the state graph.  The
result channels start as empty dicts (modelled none, which is exactly
Python-falsy; every dict a node writes is non-empty, hence truthy).  The
credit_errors and errors keys some nodes return are NOT channels of the
TypedDict and are dropped by the framework, so they do not appear here. -/
structure WState where
  applicant_data : Option ApplicantFields
  document_paths : List (String × String)
  credit_score_result : Option CreditSlotVal
  document_validation_result : Option DocSlotVal
  property_valuation_result : Option PropSlotVal
  eligibility_result : Option EligSlotVal
  approval_recommendation : Option RecSlotVal
  workflow_status : String
  doc_errors : List String
  prop_errors : List String
  elig_errors : List String
  rec_errors : List String
deriving DecidableEq

/-- A node return value: a partial update of the channels (none = the key is
not in the returned dict).  Keys returned by a node that are not channels
(credit_errors, errors) are dropped by the framework and not represented. -/
structure NodeUpdate where
  document_validation_result : Option DocSlotVal := none
  credit_score_result : Option CreditSlotVal := none
  property_valuation_result : Option PropSlotVal := none
  eligibility_result : Option EligSlotVal := none
  approval_recommendation : Option RecSlotVal := none
  workflow_status : Option String := none
  doc_errors : Option (List String) := none
  prop_errors : Option (List String) := none
  elig_errors : Option (List String) := none
  rec_errors : Option (List String) := none
deriving DecidableEq

/-- The details dict handed to the document validator is the applicant_data
dict itself (an absent dict reads as empty). -/
def docDetailsOf : Option ApplicantFields → DocDetails
  | none => {}
  | some a => { applicant_name := a.applicant_name.join, company_name := a.company_name }

/-- The try-block of _run_document_validator: build the documents list, call
validate_documents, then apply the name-match postprocess, whose .upper()
calls raise AttributeError on a Python-None name. -/
def doc_node_body (env : TextEnv) (ad : Option ApplicantFields)
    (dp : List (String × String)) : Except String ValidateDocumentsResult := do
  let documents := dp.map (fun tp => DocumentItem.mk tp.1 tp.2)
  let result := validate_documents env
    { documents := some documents, details := docDetailsOf ad }
  let appName ←
    match ad with
    | none => pure ""
    | some a =>
      match a.applicant_name with
      | none => pure ""
      | some none => throw "AttributeError: NoneType object has no attribute upper"
      | some (some s) => pure (pyUpper s)
  match result with
  | .errorRes m => pure (.errorRes m)
  | .okRes st out => do
    let docName ←
      match out.consolidated_applicant_details.applicant_name with
      | none => throw "AttributeError: NoneType object has no attribute upper"
      | some s => pure (pyUpper s)
    if pyTruthyStr appName && pyTruthyStr docName && appName != docName then
      pure (.okRes st
        { out with validation_report :=
            { overall_status := "Failure"
              checks := out.validation_report.checks ++
                [{ check := "Name Match", status := "Failure"
                   reason := some ("Document name " ++ docName ++
                     " does not equal application name " ++ appName) }] } })
    else
      pure (.okRes st out)

/-- _run_document_validator. -/
def run_document_validator (env : TextEnv) (s : WState) : NodeUpdate :=
  match doc_node_body env s.applicant_data s.document_paths with
  | .ok v =>
    { document_validation_result := some (.res v), doc_errors := some [] }
  | .error e =>
    { document_validation_result := some (.errorDict e)
      doc_errors := some ["Document validation error: " ++ e] }

/-- _run_credit_score_agent.  The external agent call is the outcome oracle;
the credit_errors key it also returns is not a channel and is dropped. -/
def run_credit_score_agent (outcome : Except String CreditOut) (_s : WState) :
    NodeUpdate :=
  match outcome with
  | .ok r => { credit_score_result := some (.res r) }
  | .error e => { credit_score_result := some (.errorDict e) }

/-- The try-block of _run_property_valuation_agent: raises ValueError when
property_details is absent, otherwise calls the embedded predict (which
never raises). -/
def prop_node_body (ml : MLState) (ad : Option ApplicantFields) :
    Except String PredictResult :=
  match ad with
  | none => .error "Missing property details"
  | some a =>
    match a.property_details with
    | none => .error "Missing property details"
    | some pd => .ok (predict ml pd)

/-- _run_property_valuation_agent. -/
def run_property_valuation_agent (ml : MLState) (s : WState) : NodeUpdate :=
  match prop_node_body ml s.applicant_data with
  | .ok r =>
    { property_valuation_result := some (.res r), prop_errors := some [] }
  | .error e =>
    { property_valuation_result := some (.errorDict e)
      prop_errors := some ["Property valuation error: " ++ e] }

/-- The node_state dict _run_eligibility_agent builds for eligibility_node. -/
structure EligNodeState where
  applicant_data : Option ApplicantFields
  property_valuation_result : Option PropSlotVal
  document_validation_result : Option DocSlotVal
  credit_score_result : Option CreditSlotVal
deriving DecidableEq

/-- The state keys read back by the wrapper after eligibility_node ran. -/
structure EligNodeOut where
  eligibility_result : Option Bool
  eligibility_checks : Option EligChecks
  applicant_name : Option String
  error : Option String
deriving DecidableEq

/-- eligibility_node (eligibility_agent.py): only the applicant_data entry
of the state is ever read; a falsy applicant dict sets the error key and
leaves the result keys unset. -/
def eligibility_node (st : EligNodeState) : Except String EligNodeOut :=
  match st.applicant_data with
  | none =>
    .ok { eligibility_result := none, eligibility_checks := none
          applicant_name := none, error := some "Missing applicant_data" }
  | some d =>
    let a := Applicant.ofData d
    match check_eligibility defaultRules a with
    | .error e => .error e
    | .ok (isEligible, checks) =>
      .ok { eligibility_result := some isEligible
            eligibility_checks := some checks
            applicant_name := a.name, error := none }

/-- _run_eligibility_agent. -/
def run_eligibility_agent (s : WState) : NodeUpdate :=
  let nodeState : EligNodeState :=
    { applicant_data := s.applicant_data
      property_valuation_result := s.property_valuation_result
      document_validation_result := s.document_validation_result
      credit_score_result := s.credit_score_result }
  match eligibility_node nodeState with
  | .ok out =>
    { eligibility_result :=
        some (.payload out.eligibility_result out.eligibility_checks out.applicant_name)
      elig_errors := some [] }
  | .error e =>
    { eligibility_result := some (.errorDict e)
      elig_errors := some ["Eligibility check error: " ++ e] }

/-- _run_approval_recommender. -/
def run_approval_recommender (recApi : Except String String) (s : WState) :
    NodeUpdate :=
  match loan_recommender_node recApi s.applicant_data with
  | .ok out =>
    match out.loan_recommendation with
    | some lr =>
      { approval_recommendation := some (.success lr.text lr.table)
        rec_errors := some [] }
    | none =>
      let msg := out.error.getD "Unknown recommendation error"
      { approval_recommendation := some (.errorDict msg)
        rec_errors := some ["Approval recommendation error: " ++ msg] }
  | .error e =>
    { approval_recommendation := some (.errorDict e)
      rec_errors := some ["Approval recommendation error: " ++ e] }

/-- dict.get("status") of the document slot. -/
def docSlotStatus : Option DocSlotVal → Option String
  | none => none
  | some (.res (.errorRes _)) => some "error"
  | some (.res (.okRes st _)) => some st
  | some (.errorDict _) => some "error"

/-- dict.get("status") of the credit slot. -/
def creditSlotStatus : Option CreditSlotVal → Option String
  | none => none
  | some (.res r) => some r.status
  | some (.errorDict _) => some "error"

/-- dict.get("status") of the valuation slot. -/
def propSlotStatus : Option PropSlotVal → Option String
  | none => none
  | some (.res (.success _ _)) => some "success"
  | some (.res (.error _)) => some "error"
  | some (.errorDict _) => some "error"

/-- dict.get("status") of the eligibility slot (the payload dict has no
status key). -/
def eligSlotStatus : Option EligSlotVal → Option String
  | none => none
  | some (.payload _ _ _) => none
  | some (.errorDict _) => some "error"

/-- dict.get("status") of the recommendation slot. -/
def recSlotStatus : Option RecSlotVal → Option String
  | none => none
  | some (.success _ _) => some "success"
  | some (.errorDict _) => some "error"

/-- The any([...]) condition of _finalize_workflow_status over the five
per-stage results. -/
def stage_error_flag (s : WState) : Bool :=
  (docSlotStatus s.document_validation_result == some "error") ||
  (creditSlotStatus s.credit_score_result == some "error") ||
  (propSlotStatus s.property_valuation_result == some "error") ||
  (eligSlotStatus s.eligibility_result == some "error") ||
  (recSlotStatus s.approval_recommendation == some "error")

/-- The accumulated error list of _finalize_workflow_status.  The middle
empty list is state.get for the credit errors, whose key is not a channel
of WorkflowState and therefore always absent. -/
def accumulated_errors (s : WState) : List String :=
  s.doc_errors ++ ([] : List String) ++ s.prop_errors ++ s.elig_errors ++ s.rec_errors

/-- _finalize_workflow_status.  It also returns an errors key, which is not
a channel and is dropped by the framework. -/
def finalize_workflow_status (s : WState) : NodeUpdate :=
  let allErrors := accumulated_errors s
  let status :=
    if stage_error_flag s then "failed"
    else if allErrors.isEmpty then "success"
    else "partial_success"
  { workflow_status := some status
    doc_errors := some [], prop_errors := some []
    elig_errors := some [], rec_errors := some [] }

/-- _should_proceed_to_eligibility: continue exactly when the three fan-out
result slots hold truthy (non-empty) dicts. -/
def should_proceed_to_eligibility (s : WState) : String :=
  if s.document_validation_result.isSome && s.credit_score_result.isSome &&
     s.property_valuation_result.isSome then "continue"
  else "wait"

/- ===================== Workflow execution model =====================
   The compiled LangGraph runs in synchronous supersteps (Pregel): every
   triggered node of a superstep executes against the state as of the end of
   the previous superstep; all writes are applied together at the end of the
   superstep.  A conditional edge is evaluated inside its source node's task
   with a fresh local read, i.e. the previous-superstep state plus the
   writes of THAT task only (pregel local_read applies the current task's
   writes); sibling writes of the same superstep are not visible to it.
   A node triggered by several edges in one superstep executes once. -/

/-- The six graph nodes. -/
inductive Node
  | document_validator
  | credit_score_agent
  | property_valuation_agent
  | eligibility_agent
  | approval_recommender
  | finalize_status
deriving DecidableEq

/-- The external collaborators of one workflow run: the text oracles of the
document validator, the credit agent call outcome, the ML-model state of the
valuation agent and the Bedrock call outcome.  Each stage body is
deterministic given these, so a re-executed node reproduces its result. -/
structure Oracles where
  text : TextEnv
  credit : Except String CreditOut
  ml : MLState
  recApi : Except String String

/-- Dispatch a node to its wrapper. -/
def runNode (oc : Oracles) : Node → WState → NodeUpdate
  | .document_validator, s => run_document_validator oc.text s
  | .credit_score_agent, s => run_credit_score_agent oc.credit s
  | .property_valuation_agent, s => run_property_valuation_agent oc.ml s
  | .eligibility_agent, s => run_eligibility_agent s
  | .approval_recommender, s => run_approval_recommender oc.recApi s
  | .finalize_status, s => finalize_workflow_status s

/-- A LastValue channel write: a returned key overwrites, an absent key
leaves the channel unchanged. -/
def chanWrite {a : Type} (w : Option a) (c : Option a) : Option a :=
  match w with
  | some v => some v
  | none => c

/-- Apply one node's returned dict to the channels. -/
def applyUpdate (s : WState) (u : NodeUpdate) : WState :=
  { s with
    document_validation_result :=
      chanWrite u.document_validation_result s.document_validation_result
    credit_score_result := chanWrite u.credit_score_result s.credit_score_result
    property_valuation_result :=
      chanWrite u.property_valuation_result s.property_valuation_result
    eligibility_result := chanWrite u.eligibility_result s.eligibility_result
    approval_recommendation :=
      chanWrite u.approval_recommendation s.approval_recommendation
    workflow_status := u.workflow_status.getD s.workflow_status
    doc_errors := u.doc_errors.getD s.doc_errors
    prop_errors := u.prop_errors.getD s.prop_errors
    elig_errors := u.elig_errors.getD s.elig_errors
    rec_errors := u.rec_errors.getD s.rec_errors }

/-- The target of the conditional edge attached to a fan-out node
({"continue": eligibility_agent, "wait": the node itself}). -/
def conditional_edge_target (selfNode : Node) (view : WState) : Node :=
  if should_proceed_to_eligibility view = "continue" then .eligibility_agent
  else selfNode

/-- Successor nodes after a node completes.  sBefore is the state at the
start of the superstep and u the completed task's own writes: a conditional
edge reads sBefore with u applied (fresh local read), static edges read
nothing.  The edge of finalize_status goes to END. -/
def routeAfter (sBefore : WState) (u : NodeUpdate) : Node → List Node
  | .document_validator =>
    [conditional_edge_target .document_validator (applyUpdate sBefore u)]
  | .credit_score_agent =>
    [conditional_edge_target .credit_score_agent (applyUpdate sBefore u)]
  | .property_valuation_agent =>
    [conditional_edge_target .property_valuation_agent (applyUpdate sBefore u)]
  | .eligibility_agent => [.approval_recommender]
  | .approval_recommender => [.finalize_status]
  | .finalize_status => []

/-- First-occurrence deduplication (a node triggered several times in one
superstep executes once in the next). -/
def dedupNodes (l : List Node) : List Node :=
  l.foldl (fun acc n => if n ∈ acc then acc else acc ++ [n]) []

/-- The process-wide progress dict of HomeLoanOrchestrator. -/
structure Progress where
  document_validator : Bool
  credit_score_agent : Bool
  property_valuation_agent : Bool
  eligibility_agent : Bool
  approval_recommender : Bool
  finalize_status : Bool
deriving DecidableEq

/-- The all-False progress map of __init__ and reset_progress. -/
def Progress.allFalse : Progress :=
  { document_validator := false, credit_score_agent := false
    property_valuation_agent := false, eligibility_agent := false
    approval_recommender := false, finalize_status := false }

/-- _update_progress: set one named flag to True. -/
def update_progress (name : String) (p : Progress) : Progress :=
  if name = "document_validator" then { p with document_validator := true }
  else if name = "credit_score_agent" then { p with credit_score_agent := true }
  else if name = "property_valuation_agent" then { p with property_valuation_agent := true }
  else if name = "eligibility_agent" then { p with eligibility_agent := true }
  else if name = "approval_recommender" then { p with approval_recommender := true }
  else if name = "finalize_status" then { p with finalize_status := true }
  else p

/-- The _update_progress call made by each node wrapper on every path.
_finalize_workflow_status never calls _update_progress. -/
def progressEffect : Node → Progress → Progress
  | .document_validator, p => update_progress "document_validator" p
  | .credit_score_agent, p => update_progress "credit_score_agent" p
  | .property_valuation_agent, p => update_progress "property_valuation_agent" p
  | .eligibility_agent, p => update_progress "eligibility_agent" p
  | .approval_recommender, p => update_progress "approval_recommender" p
  | .finalize_status, p => p

/-- One superstep: run every active node against the superstep-start state,
apply all writes, update the progress flags, and compute the next active
set from the edges (conditional edges see the start state plus their own
task's writes only). -/
def step (oc : Oracles) (t : List Node × WState × Progress) :
    List Node × WState × Progress :=
  let active := t.1
  let s := t.2.1
  let p := t.2.2
  let tasks := active.map (fun n => (n, runNode oc n s))
  let s' := tasks.foldl (fun acc nu => applyUpdate acc nu.2) s
  let p' := tasks.foldl (fun acc nu => progressEffect nu.1 acc) p
  let next := dedupNodes (tasks.flatMap (fun nu => routeAfter s nu.2 nu.1))
  (next, s', p')

/-- The initial WorkflowState built by run_workflow. -/
def initial_state (ad : Option ApplicantFields) (dp : List (String × String)) :
    WState :=
  { applicant_data := ad
    document_paths := dp
    credit_score_result := none
    document_validation_result := none
    property_valuation_result := none
    eligibility_result := none
    approval_recommendation := none
    workflow_status := "started"
    doc_errors := [], prop_errors := [], elig_errors := [], rec_errors := [] }

/-- The three START edges trigger the fan-out nodes in superstep 0. -/
def initial_active : List Node :=
  [.document_validator, .credit_score_agent, .property_valuation_agent]

/-- The execution trace of one graph invocation: the active node set, the
state and the progress map before superstep i. -/
def traceAt (oc : Oracles) (ad : Option ApplicantFields)
    (dp : List (String × String)) (p0 : Progress) :
    Nat → List Node × WState × Progress
  | 0 => (initial_active, initial_state ad dp, p0)
  | n + 1 => step oc (traceAt oc ad dp p0 n)

/-- The nodes executed during the first n supersteps, in order. -/
def executed_nodes (oc : Oracles) (ad : Option ApplicantFields)
    (dp : List (String × String)) (p0 : Progress) (n : Nat) : List Node :=
  (List.range n).flatMap (fun i => (traceAt oc ad dp p0 i).1)

/-- An orchestrator instance: the only mutable instance state the claims
depend on is the process-wide progress dict. -/
structure Orchestrator where
  progress : Progress
deriving DecidableEq

/-- HomeLoanOrchestrator.__init__ (progress starts all False). -/
def Orchestrator.new : Orchestrator := { progress := Progress.allFalse }

/-- reset_progress. -/
def reset_progress (_o : Orchestrator) : Orchestrator :=
  { progress := Progress.allFalse }

/-- get_progress. -/
def get_progress (o : Orchestrator) : Progress := o.progress

/-- The per-stage results dict assembled by run_workflow. -/
structure StageResults where
  document_validation : Option DocSlotVal
  credit_score : Option CreditSlotVal
  property_valuation : Option PropSlotVal
  eligibility : Option EligSlotVal
  approval_recommendation : Option RecSlotVal
deriving DecidableEq

/-- The dict returned by run_workflow. -/
structure WorkflowResult where
  status : String
  message : Option String
  results : Option StageResults
  errors : List String
deriving DecidableEq

/-- run_workflow.  It builds a fresh initial WorkflowState, invokes the
compiled graph (five supersteps settle it; later supersteps are empty) and
snapshots the outcome.  It never touches the instance progress map before
the run.  invokeExc is the oracle for a wholesale framework-level exception
of app.invoke: per-stage exceptions are already consumed inside the node
wrappers and cannot surface here.  The errors key of the returned snapshot
is final_state.get of a key that is not a channel, hence always []. -/
def run_workflow (o : Orchestrator) (oc : Oracles) (invokeExc : Option String)
    (ad : Option ApplicantFields) (dp : List (String × String)) :
    WorkflowResult × Orchestrator :=
  match invokeExc with
  | some e =>
    ({ status := "error"
       message := some ("Workflow execution failed: " ++ e)
       results := none
       errors := [e] }, o)
  | none =>
    let t := traceAt oc ad dp o.progress 5
    let fs := t.2.1
    ({ status := fs.workflow_status
       message := none
       results := some
         { document_validation := fs.document_validation_result
           credit_score := fs.credit_score_result
           property_valuation := fs.property_valuation_result
           eligibility := fs.eligibility_result
           approval_recommendation := fs.approval_recommendation }
       errors := [] },
     { progress := t.2.2 })

/- ===================== Shared lemmas ===================== -/

theorem chanWrite_some {a : Type} (v : a) (c : Option a) :
    chanWrite (some v) c = some v := rfl

theorem chanWrite_none {a : Type} (c : Option a) :
    chanWrite (none : Option a) c = c := rfl

theorem applyUpdate_applicant_data (s : WState) (u : NodeUpdate) :
    (applyUpdate s u).applicant_data = s.applicant_data := rfl

theorem applyUpdate_document_paths (s : WState) (u : NodeUpdate) :
    (applyUpdate s u).document_paths = s.document_paths := rfl

theorem applyUpdate_dv (s : WState) (u : NodeUpdate) :
    (applyUpdate s u).document_validation_result =
      chanWrite u.document_validation_result s.document_validation_result := rfl

theorem applyUpdate_credit (s : WState) (u : NodeUpdate) :
    (applyUpdate s u).credit_score_result =
      chanWrite u.credit_score_result s.credit_score_result := rfl

theorem applyUpdate_prop (s : WState) (u : NodeUpdate) :
    (applyUpdate s u).property_valuation_result =
      chanWrite u.property_valuation_result s.property_valuation_result := rfl

theorem applyUpdate_elig (s : WState) (u : NodeUpdate) :
    (applyUpdate s u).eligibility_result =
      chanWrite u.eligibility_result s.eligibility_result := rfl

theorem applyUpdate_rec (s : WState) (u : NodeUpdate) :
    (applyUpdate s u).approval_recommendation =
      chanWrite u.approval_recommendation s.approval_recommendation := rfl

theorem applyUpdate_ws (s : WState) (u : NodeUpdate) :
    (applyUpdate s u).workflow_status =
      u.workflow_status.getD s.workflow_status := rfl

/-- Shape of a document-validator update: it writes exactly the result slot
and the doc error list. -/
theorem run_doc_shape (env : TextEnv) (s : WState) :
    ∃ v l, run_document_validator env s =
      { document_validation_result := some v, doc_errors := some l } := by
  unfold run_document_validator
  cases doc_node_body env s.applicant_data s.document_paths <;> exact ⟨_, _, rfl⟩

/-- Shape of a credit-score update: it writes exactly the result slot (its
credit_errors key is not a channel). -/
theorem run_credit_shape (oc : Except String CreditOut) (s : WState) :
    ∃ v, run_credit_score_agent oc s = { credit_score_result := some v } := by
  unfold run_credit_score_agent
  cases oc <;> exact ⟨_, rfl⟩

/-- Shape of a property-valuation update. -/
theorem run_prop_shape (ml : MLState) (s : WState) :
    ∃ v l, run_property_valuation_agent ml s =
      { property_valuation_result := some v, prop_errors := some l } := by
  unfold run_property_valuation_agent
  cases prop_node_body ml s.applicant_data <;> exact ⟨_, _, rfl⟩

/-- Shape of an eligibility update. -/
theorem run_elig_shape (s : WState) :
    ∃ v l, run_eligibility_agent s =
      { eligibility_result := some v, elig_errors := some l } := by
  unfold run_eligibility_agent
  cases h : eligibility_node
      { applicant_data := s.applicant_data
        property_valuation_result := s.property_valuation_result
        document_validation_result := s.document_validation_result
        credit_score_result := s.credit_score_result } with
  | ok out => simp only [h]; exact ⟨_, _, rfl⟩
  | error e => simp only [h]; exact ⟨_, _, rfl⟩

/-- Shape of an approval-recommender update. -/
theorem run_rec_shape (api : Except String String) (s : WState) :
    ∃ v l, run_approval_recommender api s =
      { approval_recommendation := some v, rec_errors := some l } := by
  unfold run_approval_recommender
  cases h : loan_recommender_node api s.applicant_data with
  | error e => simp only [h]; exact ⟨_, _, rfl⟩
  | ok out =>
    cases h2 : out.loan_recommendation <;> simp only [h, h2] <;> exact ⟨_, _, rfl⟩

/-- Fields written by the document-validator node. -/
theorem doc_update_fields (env : TextEnv) (s : WState) :
    (run_document_validator env s).document_validation_result.isSome = true ∧
    (run_document_validator env s).credit_score_result = none ∧
    (run_document_validator env s).property_valuation_result = none ∧
    (run_document_validator env s).eligibility_result = none ∧
    (run_document_validator env s).approval_recommendation = none ∧
    (run_document_validator env s).workflow_status = none := by
  unfold run_document_validator
  cases doc_node_body env s.applicant_data s.document_paths <;> simp

/-- Fields written by the credit-score node. -/
theorem credit_update_fields (oc : Except String CreditOut) (s : WState) :
    (run_credit_score_agent oc s).credit_score_result.isSome = true ∧
    (run_credit_score_agent oc s).document_validation_result = none ∧
    (run_credit_score_agent oc s).property_valuation_result = none ∧
    (run_credit_score_agent oc s).eligibility_result = none ∧
    (run_credit_score_agent oc s).approval_recommendation = none ∧
    (run_credit_score_agent oc s).workflow_status = none := by
  unfold run_credit_score_agent
  cases oc <;> simp

/-- Fields written by the property-valuation node. -/
theorem prop_update_fields (ml : MLState) (s : WState) :
    (run_property_valuation_agent ml s).property_valuation_result.isSome = true ∧
    (run_property_valuation_agent ml s).document_validation_result = none ∧
    (run_property_valuation_agent ml s).credit_score_result = none ∧
    (run_property_valuation_agent ml s).eligibility_result = none ∧
    (run_property_valuation_agent ml s).approval_recommendation = none ∧
    (run_property_valuation_agent ml s).workflow_status = none := by
  unfold run_property_valuation_agent
  cases prop_node_body ml s.applicant_data <;> simp

/-- Fields written by the eligibility node. -/
theorem elig_update_fields (s : WState) :
    (run_eligibility_agent s).eligibility_result.isSome = true ∧
    (run_eligibility_agent s).document_validation_result = none ∧
    (run_eligibility_agent s).credit_score_result = none ∧
    (run_eligibility_agent s).property_valuation_result = none ∧
    (run_eligibility_agent s).approval_recommendation = none ∧
    (run_eligibility_agent s).workflow_status = none := by
  unfold run_eligibility_agent
  cases h : eligibility_node
      { applicant_data := s.applicant_data
        property_valuation_result := s.property_valuation_result
        document_validation_result := s.document_validation_result
        credit_score_result := s.credit_score_result } <;> simp [h]

/-- Fields written by the approval-recommender node. -/
theorem rec_update_fields (api : Except String String) (s : WState) :
    (run_approval_recommender api s).approval_recommendation.isSome = true ∧
    (run_approval_recommender api s).document_validation_result = none ∧
    (run_approval_recommender api s).credit_score_result = none ∧
    (run_approval_recommender api s).property_valuation_result = none ∧
    (run_approval_recommender api s).eligibility_result = none ∧
    (run_approval_recommender api s).workflow_status = none := by
  unfold run_approval_recommender
  cases h : loan_recommender_node api s.applicant_data with
  | error e => simp [h]
  | ok out => cases h2 : out.loan_recommendation <;> simp [h, h2]

/-- Fields written by the finalizer. -/
theorem finalize_update_fields (s : WState) :
    (finalize_workflow_status s).workflow_status =
      some (if stage_error_flag s then "failed"
            else if (accumulated_errors s).isEmpty then "success"
            else "partial_success") ∧
    (finalize_workflow_status s).document_validation_result = none ∧
    (finalize_workflow_status s).credit_score_result = none ∧
    (finalize_workflow_status s).property_valuation_result = none ∧
    (finalize_workflow_status s).eligibility_result = none ∧
    (finalize_workflow_status s).approval_recommendation = none := by
  unfold finalize_workflow_status
  simp

/- ===================== C1 ===================== -/

/-- The applicant of the concrete scenario of claim C1: loan 8,000,000
against a property worth 10,000,000 (LTV 0.8), credit 720, monthly income
20,000, salaried, existing debt 5,000. -/
def c1ApplicantData : ApplicantFields :=
  { full_name := some "Test Applicant"
    monthly_income := some 20000
    loan_amount := some 8000000
    property_value := some 10000000
    credit_score := some 720
    employment_status := some "salaried"
    existing_loans := some 5000 }

/-- C1 (code bug): on the claimed applicant the per-check breakdown is
exactly as the claim says (only the LTV check reads No, the other four
pass), but check_eligibility returns is_eligible = TRUE, not false: the
source computes all(checks.values()) over the strings Yes/No, which are
both truthy, so the flag ignores every check except the employment
boolean. -/
theorem eligibility_ltv_truthiness_divergence :
    check_eligibility defaultRules (Applicant.ofData c1ApplicantData) =
      Except.ok (true,
        { ltv_check := "No", credit_score_check := "Yes", income_check := "Yes",
          employment_check := true, dti_check := "Yes" }) := by
  have h1 : ¬ ((8000000 : ℚ)/10000000 ≤ 7/10) := by norm_num
  have h2 : ((5000 : ℚ)/20000 ≤ 1/2) := by norm_num
  norm_num [check_eligibility, calculate_ltv, calculate_dti, pyDiv, defaultRules,
    c1ApplicantData, pyTruthyStr, Applicant.ofData, h1, h2, if_neg, if_pos,
    bind, Except.bind, pure, Except.pure, pyLower]
  decide

/- ===================== C2 ===================== -/

/-- C2 (confirmed): the finalizer writes the workflow status to exactly one
of failed, partial_success, success; it is failed exactly when one of the
five per-stage results carries an error status, otherwise partial_success
exactly when the accumulated error list is non-empty, otherwise success;
and no node other than the finalizer ever writes the workflow_status
channel. -/
theorem finalize_status_classification :
    ∀ s : WState,
      ((finalize_workflow_status s).workflow_status = some "failed" ∨
       (finalize_workflow_status s).workflow_status = some "partial_success" ∨
       (finalize_workflow_status s).workflow_status = some "success") ∧
      ((finalize_workflow_status s).workflow_status = some "failed" ↔
        stage_error_flag s = true) ∧
      ((finalize_workflow_status s).workflow_status = some "partial_success" ↔
        (stage_error_flag s = false ∧ accumulated_errors s ≠ [])) ∧
      ((finalize_workflow_status s).workflow_status = some "success" ↔
        (stage_error_flag s = false ∧ accumulated_errors s = [])) ∧
      (∀ oc : Oracles,
        (runNode oc .document_validator s).workflow_status = none ∧
        (runNode oc .credit_score_agent s).workflow_status = none ∧
        (runNode oc .property_valuation_agent s).workflow_status = none ∧
        (runNode oc .eligibility_agent s).workflow_status = none ∧
        (runNode oc .approval_recommender s).workflow_status = none) := by
  intro s
  refine ⟨?_, ?_, ?_, ?_, ?_⟩
  · cases hE : stage_error_flag s <;>
      cases hA : (accumulated_errors s).isEmpty <;>
      simp [finalize_workflow_status, hE, hA]
  · cases hE : stage_error_flag s <;>
      cases hA : (accumulated_errors s).isEmpty <;>
      simp [finalize_workflow_status, hE, hA]
  · cases hE : stage_error_flag s <;>
      cases hA : (accumulated_errors s).isEmpty <;>
      simp_all [finalize_workflow_status, List.isEmpty_iff]
  · cases hE : stage_error_flag s <;>
      cases hA : (accumulated_errors s).isEmpty <;>
      simp_all [finalize_workflow_status, List.isEmpty_iff]
  · intro oc
    exact ⟨(doc_update_fields oc.text s).2.2.2.2.2,
      (credit_update_fields oc.credit s).2.2.2.2.2,
      (prop_update_fields oc.ml s).2.2.2.2.2,
      (elig_update_fields s).2.2.2.2.2,
      (rec_update_fields oc.recApi s).2.2.2.2.2⟩

/- ===================== C10 ===================== -/

/-- C10 (confirmed): the eligibility node update is a function of
applicant_data alone — two workflow states that agree on applicant_data but
differ arbitrarily in the three upstream results (error markers included)
produce identical eligibility updates. -/
theorem eligibility_noninterference :
    ∀ s s' : WState, s.applicant_data = s'.applicant_data →
      run_eligibility_agent s = run_eligibility_agent s' := by
  intro s s' h
  unfold run_eligibility_agent eligibility_node
  simp only [h]

/-- Upstream results for the noninterference witness: a failed document
validation, a failed credit call and a successful valuation. -/
def c10StateA : WState :=
  { initial_state (some c1ApplicantData) [("PAN", "a.png")] with
    document_validation_result := some (.errorDict "textract down")
    credit_score_result := some (.errorDict "bureau down")
    property_valuation_result := some (.res (.error "Property valuation failed: x")) }

/-- Same applicant_data as c10StateA with entirely different (successful)
upstream results. -/
def c10StateB : WState :=
  { initial_state (some c1ApplicantData) [] with
    document_validation_result := some (.res (.errorRes "Required documents not provided"))
    credit_score_result := some (.res { status := "completed" })
    property_valuation_result := none }

/-- Witness for C10 at two concrete states. -/
theorem eligibility_noninterference_witness :
    run_eligibility_agent c10StateA = run_eligibility_agent c10StateB :=
  eligibility_noninterference c10StateA c10StateB rfl

theorem step_fanout_waits (oc : Oracles) (s : WState) (p : Progress)
    (hd : s.document_validation_result = none)
    (hc : s.credit_score_result = none) :
    (step oc (initial_active, s, p)).1 = initial_active := by
  obtain ⟨vD, lD, hD⟩ := run_doc_shape oc.text s
  obtain ⟨vC, hC⟩ := run_credit_shape oc.credit s
  obtain ⟨vP, lP, hP⟩ := run_prop_shape oc.ml s
  simp [step, initial_active, runNode, hD, hC, hP, routeAfter,
    conditional_edge_target, should_proceed_to_eligibility,
    applyUpdate_dv, applyUpdate_credit, applyUpdate_prop,
    chanWrite_some, chanWrite_none, hd, hc, dedupNodes]

theorem step_fanout_settled (oc : Oracles) (s : WState) (p : Progress)
    (hd : s.document_validation_result.isSome = true)
    (hc : s.credit_score_result.isSome = true)
    (hp : s.property_valuation_result.isSome = true) :
    (step oc (initial_active, s, p)).1 = [.eligibility_agent] := by
  obtain ⟨vD, lD, hD⟩ := run_doc_shape oc.text s
  obtain ⟨vC, hC⟩ := run_credit_shape oc.credit s
  obtain ⟨vP, lP, hP⟩ := run_prop_shape oc.ml s
  obtain ⟨dv, hdv⟩ := Option.isSome_iff_exists.mp hd
  obtain ⟨cv, hcv⟩ := Option.isSome_iff_exists.mp hc
  obtain ⟨pv, hpv⟩ := Option.isSome_iff_exists.mp hp
  simp [step, initial_active, runNode, hD, hC, hP, routeAfter,
    conditional_edge_target, should_proceed_to_eligibility,
    applyUpdate_dv, applyUpdate_credit, applyUpdate_prop,
    chanWrite_some, chanWrite_none, hdv, hcv, hpv, dedupNodes]

theorem step_fanout_state (oc : Oracles) (s : WState) (p : Progress) :
    (step oc (initial_active, s, p)).2.1.document_validation_result.isSome = true ∧
    (step oc (initial_active, s, p)).2.1.credit_score_result.isSome = true ∧
    (step oc (initial_active, s, p)).2.1.property_valuation_result.isSome = true ∧
    (step oc (initial_active, s, p)).2.1.eligibility_result = s.eligibility_result ∧
    (step oc (initial_active, s, p)).2.1.approval_recommendation = s.approval_recommendation ∧
    (step oc (initial_active, s, p)).2.1.applicant_data = s.applicant_data ∧
    (step oc (initial_active, s, p)).2.1.document_paths = s.document_paths ∧
    (step oc (initial_active, s, p)).2.1.workflow_status = s.workflow_status := by
  obtain ⟨vD, lD, hD⟩ := run_doc_shape oc.text s
  obtain ⟨vC, hC⟩ := run_credit_shape oc.credit s
  obtain ⟨vP, lP, hP⟩ := run_prop_shape oc.ml s
  simp [step, initial_active, runNode, hD, hC, hP,
    applyUpdate_dv, applyUpdate_credit, applyUpdate_prop, applyUpdate_elig,
    applyUpdate_rec, applyUpdate_ws, applyUpdate_applicant_data,
    applyUpdate_document_paths, chanWrite_some, chanWrite_none]

theorem step_elig (oc : Oracles) (s : WState) (p : Progress) :
    (step oc ([.eligibility_agent], s, p)).1 = [.approval_recommender] ∧
    (step oc ([.eligibility_agent], s, p)).2.1.eligibility_result.isSome = true ∧
    (step oc ([.eligibility_agent], s, p)).2.1.document_validation_result = s.document_validation_result ∧
    (step oc ([.eligibility_agent], s, p)).2.1.credit_score_result = s.credit_score_result ∧
    (step oc ([.eligibility_agent], s, p)).2.1.property_valuation_result = s.property_valuation_result ∧
    (step oc ([.eligibility_agent], s, p)).2.1.approval_recommendation = s.approval_recommendation ∧
    (step oc ([.eligibility_agent], s, p)).2.1.applicant_data = s.applicant_data ∧
    (step oc ([.eligibility_agent], s, p)).2.1.workflow_status = s.workflow_status := by
  obtain ⟨vE, lE, hE⟩ := run_elig_shape s
  simp [step, runNode, hE, routeAfter, dedupNodes,
    applyUpdate_dv, applyUpdate_credit, applyUpdate_prop, applyUpdate_elig,
    applyUpdate_rec, applyUpdate_ws, applyUpdate_applicant_data,
    chanWrite_some, chanWrite_none]

theorem step_rec (oc : Oracles) (s : WState) (p : Progress) :
    (step oc ([.approval_recommender], s, p)).1 = [.finalize_status] ∧
    (step oc ([.approval_recommender], s, p)).2.1.approval_recommendation.isSome = true ∧
    (step oc ([.approval_recommender], s, p)).2.1.document_validation_result = s.document_validation_result ∧
    (step oc ([.approval_recommender], s, p)).2.1.credit_score_result = s.credit_score_result ∧
    (step oc ([.approval_recommender], s, p)).2.1.property_valuation_result = s.property_valuation_result ∧
    (step oc ([.approval_recommender], s, p)).2.1.eligibility_result = s.eligibility_result ∧
    (step oc ([.approval_recommender], s, p)).2.1.workflow_status = s.workflow_status := by
  obtain ⟨vR, lR, hR⟩ := run_rec_shape oc.recApi s
  simp [step, runNode, hR, routeAfter, dedupNodes,
    applyUpdate_dv, applyUpdate_credit, applyUpdate_prop, applyUpdate_elig,
    applyUpdate_rec, applyUpdate_ws, chanWrite_some, chanWrite_none]

theorem step_fin (oc : Oracles) (s : WState) (p : Progress) :
    (step oc ([.finalize_status], s, p)).1 = [] ∧
    (step oc ([.finalize_status], s, p)).2.1.workflow_status =
      (if stage_error_flag s then "failed"
       else if (accumulated_errors s).isEmpty then "success"
       else "partial_success") ∧
    (step oc ([.finalize_status], s, p)).2.1.document_validation_result = s.document_validation_result ∧
    (step oc ([.finalize_status], s, p)).2.1.credit_score_result = s.credit_score_result ∧
    (step oc ([.finalize_status], s, p)).2.1.property_valuation_result = s.property_valuation_result ∧
    (step oc ([.finalize_status], s, p)).2.1.eligibility_result = s.eligibility_result ∧
    (step oc ([.finalize_status], s, p)).2.1.approval_recommendation = s.approval_recommendation ∧
    (step oc ([.finalize_status], s, p)).2.2 = p := by
  simp [step, runNode, routeAfter, dedupNodes, finalize_workflow_status,
    applyUpdate_dv, applyUpdate_credit, applyUpdate_prop, applyUpdate_elig,
    applyUpdate_rec, applyUpdate_ws, chanWrite_some, chanWrite_none,
    progressEffect]

theorem step_empty (oc : Oracles) (s : WState) (p : Progress) :
    step oc ([], s, p) = ([], s, p) := rfl

theorem step_progress (oc : Oracles) (t : List Node × WState × Progress) :
    (step oc t).2.2 = t.1.foldl (fun acc n => progressEffect n acc) t.2.2 := by
  simp [step, List.foldl_map]

theorem progressEffect_doc (p : Progress) :
    progressEffect .document_validator p = { p with document_validator := true } := rfl

theorem progressEffect_credit (p : Progress) :
    progressEffect .credit_score_agent p = { p with credit_score_agent := true } := rfl

theorem progressEffect_prop (p : Progress) :
    progressEffect .property_valuation_agent p =
      { p with property_valuation_agent := true } := rfl

theorem progressEffect_elig (p : Progress) :
    progressEffect .eligibility_agent p = { p with eligibility_agent := true } := rfl

theorem progressEffect_rec (p : Progress) :
    progressEffect .approval_recommender p =
      { p with approval_recommender := true } := rfl

theorem progressEffect_fin (p : Progress) :
    progressEffect .finalize_status p = p := rfl

/-- Rewrite a trace triple once its active component is known. -/
theorem withActive (t : List Node × WState × Progress) (a : List Node)
    (h : t.1 = a) : t = (a, t.2.1, t.2.2) := by
  rw [← h]

set_option maxHeartbeats 1000000 in
/-- The full superstep profile of one graph invocation, for every oracle
choice, every input and every starting progress map: the three fan-out
nodes run in supersteps 0 AND 1 (each conditional edge sees only its own
result in superstep 0 and routes wait back to its source), eligibility runs
in superstep 2, the recommender in superstep 3, the finalizer in superstep
4, and the graph is then done.  The three fan-out slots are settled before
eligibility runs, all five slots are settled at the end, and the final
workflow status is the finalizer's classification of the settled state. -/
theorem trace_profile (oc : Oracles) (ad : Option ApplicantFields)
    (dp : List (String × String)) (p0 : Progress) :
    (traceAt oc ad dp p0 1).1 = initial_active ∧
    (traceAt oc ad dp p0 2).1 = [.eligibility_agent] ∧
    (traceAt oc ad dp p0 3).1 = [.approval_recommender] ∧
    (traceAt oc ad dp p0 4).1 = [.finalize_status] ∧
    (traceAt oc ad dp p0 5).1 = [] ∧
    ((traceAt oc ad dp p0 2).2.1.document_validation_result.isSome = true ∧
     (traceAt oc ad dp p0 2).2.1.credit_score_result.isSome = true ∧
     (traceAt oc ad dp p0 2).2.1.property_valuation_result.isSome = true) ∧
    ((traceAt oc ad dp p0 5).2.1.document_validation_result.isSome = true ∧
     (traceAt oc ad dp p0 5).2.1.credit_score_result.isSome = true ∧
     (traceAt oc ad dp p0 5).2.1.property_valuation_result.isSome = true ∧
     (traceAt oc ad dp p0 5).2.1.eligibility_result.isSome = true ∧
     (traceAt oc ad dp p0 5).2.1.approval_recommendation.isSome = true) ∧
    ((traceAt oc ad dp p0 5).2.1.workflow_status = "failed" ∨
     (traceAt oc ad dp p0 5).2.1.workflow_status = "partial_success" ∨
     (traceAt oc ad dp p0 5).2.1.workflow_status = "success") := by
  have e1 : traceAt oc ad dp p0 1 =
      step oc (initial_active, initial_state ad dp, p0) := rfl
  have a1 : (traceAt oc ad dp p0 1).1 = initial_active := by
    rw [e1]; exact step_fanout_waits oc _ p0 rfl rfl
  have st1 := step_fanout_state oc (initial_state ad dp) p0
  have e2 : traceAt oc ad dp p0 2 =
      step oc (initial_active, (traceAt oc ad dp p0 1).2.1, (traceAt oc ad dp p0 1).2.2) := by
    show step oc (traceAt oc ad dp p0 1) = _
    rw [withActive (traceAt oc ad dp p0 1) _ a1]
  have a2 : (traceAt oc ad dp p0 2).1 = [.eligibility_agent] := by
    rw [e2]
    exact step_fanout_settled oc _ _ (e1 ▸ st1.1) (e1 ▸ st1.2.1) (e1 ▸ st1.2.2.1)
  have st2 := step_fanout_state oc (traceAt oc ad dp p0 1).2.1 (traceAt oc ad dp p0 1).2.2
  have s2d : (traceAt oc ad dp p0 2).2.1.document_validation_result.isSome = true := by
    rw [e2]; exact st2.1
  have s2c : (traceAt oc ad dp p0 2).2.1.credit_score_result.isSome = true := by
    rw [e2]; exact st2.2.1
  have s2p : (traceAt oc ad dp p0 2).2.1.property_valuation_result.isSome = true := by
    rw [e2]; exact st2.2.2.1
  have e3 : traceAt oc ad dp p0 3 =
      step oc ([.eligibility_agent], (traceAt oc ad dp p0 2).2.1, (traceAt oc ad dp p0 2).2.2) := by
    show step oc (traceAt oc ad dp p0 2) = _
    rw [withActive (traceAt oc ad dp p0 2) _ a2]
  have st3 := step_elig oc (traceAt oc ad dp p0 2).2.1 (traceAt oc ad dp p0 2).2.2
  have a3 : (traceAt oc ad dp p0 3).1 = [.approval_recommender] := by
    rw [e3]; exact st3.1
  have s3d : (traceAt oc ad dp p0 3).2.1.document_validation_result.isSome = true := by
    rw [e3, st3.2.2.1]; exact s2d
  have s3c : (traceAt oc ad dp p0 3).2.1.credit_score_result.isSome = true := by
    rw [e3, st3.2.2.2.1]; exact s2c
  have s3p : (traceAt oc ad dp p0 3).2.1.property_valuation_result.isSome = true := by
    rw [e3, st3.2.2.2.2.1]; exact s2p
  have s3e : (traceAt oc ad dp p0 3).2.1.eligibility_result.isSome = true := by
    rw [e3]; exact st3.2.1
  have e4 : traceAt oc ad dp p0 4 =
      step oc ([.approval_recommender], (traceAt oc ad dp p0 3).2.1, (traceAt oc ad dp p0 3).2.2) := by
    show step oc (traceAt oc ad dp p0 3) = _
    rw [withActive (traceAt oc ad dp p0 3) _ a3]
  have st4 := step_rec oc (traceAt oc ad dp p0 3).2.1 (traceAt oc ad dp p0 3).2.2
  have a4 : (traceAt oc ad dp p0 4).1 = [.finalize_status] := by
    rw [e4]; exact st4.1
  have s4d : (traceAt oc ad dp p0 4).2.1.document_validation_result.isSome = true := by
    rw [e4, st4.2.2.1]; exact s3d
  have s4c : (traceAt oc ad dp p0 4).2.1.credit_score_result.isSome = true := by
    rw [e4, st4.2.2.2.1]; exact s3c
  have s4p : (traceAt oc ad dp p0 4).2.1.property_valuation_result.isSome = true := by
    rw [e4, st4.2.2.2.2.1]; exact s3p
  have s4e : (traceAt oc ad dp p0 4).2.1.eligibility_result.isSome = true := by
    rw [e4, st4.2.2.2.2.2.1]; exact s3e
  have s4r : (traceAt oc ad dp p0 4).2.1.approval_recommendation.isSome = true := by
    rw [e4]; exact st4.2.1
  have e5 : traceAt oc ad dp p0 5 =
      step oc ([.finalize_status], (traceAt oc ad dp p0 4).2.1, (traceAt oc ad dp p0 4).2.2) := by
    show step oc (traceAt oc ad dp p0 4) = _
    rw [withActive (traceAt oc ad dp p0 4) _ a4]
  have st5 := step_fin oc (traceAt oc ad dp p0 4).2.1 (traceAt oc ad dp p0 4).2.2
  have a5 : (traceAt oc ad dp p0 5).1 = [] := by
    rw [e5]; exact st5.1
  have s5d : (traceAt oc ad dp p0 5).2.1.document_validation_result.isSome = true := by
    rw [e5, st5.2.2.1]; exact s4d
  have s5c : (traceAt oc ad dp p0 5).2.1.credit_score_result.isSome = true := by
    rw [e5, st5.2.2.2.1]; exact s4c
  have s5p : (traceAt oc ad dp p0 5).2.1.property_valuation_result.isSome = true := by
    rw [e5, st5.2.2.2.2.1]; exact s4p
  have s5e : (traceAt oc ad dp p0 5).2.1.eligibility_result.isSome = true := by
    rw [e5, st5.2.2.2.2.2.1]; exact s4e
  have s5r : (traceAt oc ad dp p0 5).2.1.approval_recommendation.isSome = true := by
    rw [e5, st5.2.2.2.2.2.2.1]; exact s4r
  have s5w : (traceAt oc ad dp p0 5).2.1.workflow_status = "failed" ∨
      (traceAt oc ad dp p0 5).2.1.workflow_status = "partial_success" ∨
      (traceAt oc ad dp p0 5).2.1.workflow_status = "success" := by
    rw [e5, st5.2.1]
    rcases h1 : stage_error_flag (traceAt oc ad dp p0 4).2.1 with _ | _
    · rcases h2 : (accumulated_errors (traceAt oc ad dp p0 4).2.1).isEmpty with _ | _ <;> simp
    · simp
  exact ⟨a1, a2, a3, a4, a5, ⟨s2d, s2c, s2p⟩, ⟨s5d, s5c, s5p, s5e, s5r⟩, s5w⟩

/-- After the finalizer superstep the active set stays empty. -/
theorem trace_done (oc : Oracles) (ad : Option ApplicantFields)
    (dp : List (String × String)) (p0 : Progress) :
    ∀ i, 5 ≤ i → (traceAt oc ad dp p0 i).1 = [] := by
  intro i hi
  induction i with
  | zero => omega
  | succ n ih =>
    rcases Nat.lt_or_ge n 5 with h | h
    · have h5 : n + 1 = 5 := by omega
      rw [h5]
      exact (trace_profile oc ad dp p0).2.2.2.2.1
    · have hn := ih h
      show (step oc (traceAt oc ad dp p0 n)).1 = []
      rw [withActive (traceAt oc ad dp p0 n) _ hn]
      rfl

/-- The ordering on progress snapshots: every set flag stays set. -/
def Progress.le (p q : Progress) : Prop :=
  (p.document_validator = true → q.document_validator = true) ∧
  (p.credit_score_agent = true → q.credit_score_agent = true) ∧
  (p.property_valuation_agent = true → q.property_valuation_agent = true) ∧
  (p.eligibility_agent = true → q.eligibility_agent = true) ∧
  (p.approval_recommender = true → q.approval_recommender = true) ∧
  (p.finalize_status = true → q.finalize_status = true)

theorem Progress.le_refl (p : Progress) : Progress.le p p :=
  ⟨id, id, id, id, id, id⟩

theorem Progress.le_trans {p q r : Progress}
    (h1 : Progress.le p q) (h2 : Progress.le q r) : Progress.le p r :=
  ⟨fun h => h2.1 (h1.1 h), fun h => h2.2.1 (h1.2.1 h),
   fun h => h2.2.2.1 (h1.2.2.1 h), fun h => h2.2.2.2.1 (h1.2.2.2.1 h),
   fun h => h2.2.2.2.2.1 (h1.2.2.2.2.1 h),
   fun h => h2.2.2.2.2.2 (h1.2.2.2.2.2 h)⟩

/-- _update_progress only flips a flag from false to true. -/
theorem update_progress_le (name : String) (p : Progress) :
    Progress.le p (update_progress name p) := by
  unfold update_progress Progress.le
  split_ifs <;> simp

/-- Each node's progress side effect only flips flags to true. -/
theorem progressEffect_le (n : Node) (p : Progress) :
    Progress.le p (progressEffect n p) := by
  cases n <;> first
    | exact Progress.le_refl p
    | exact update_progress_le _ p

theorem foldl_progressEffect_le (l : List Node) (p : Progress) :
    Progress.le p (l.foldl (fun acc n => progressEffect n acc) p) := by
  induction l generalizing p with
  | nil => exact Progress.le_refl p
  | cons n rest ih =>
    exact Progress.le_trans (progressEffect_le n p) (ih _)

/-- Progress snapshots grow monotonically along the trace. -/
theorem trace_progress_le (oc : Oracles) (ad : Option ApplicantFields)
    (dp : List (String × String)) (p0 : Progress) :
    ∀ i j, i ≤ j →
      Progress.le (traceAt oc ad dp p0 i).2.2 (traceAt oc ad dp p0 j).2.2 := by
  intro i j hij
  induction j with
  | zero =>
    cases Nat.le_zero.mp hij
    exact Progress.le_refl _
  | succ n ih =>
    rcases Nat.lt_or_ge n (i) with h | h
    · have : i = n + 1 := by omega
      cases this
      exact Progress.le_refl _
    · refine Progress.le_trans (ih h) ?_
      have hs : (traceAt oc ad dp p0 (n + 1)).2.2 =
          (traceAt oc ad dp p0 n).1.foldl (fun acc m => progressEffect m acc)
            (traceAt oc ad dp p0 n).2.2 :=
        step_progress oc (traceAt oc ad dp p0 n)
      rw [hs]
      exact foldl_progressEffect_le _ _

/-- The progress map at the end of a run: the five stage flags are set (each
wrapper calls _update_progress on every path, twice for the re-executed
fan-out nodes), and the finalize flag is never set by anything. -/
theorem run_progress_final (oc : Oracles) (ad : Option ApplicantFields)
    (dp : List (String × String)) (p0 : Progress) :
    (traceAt oc ad dp p0 5).2.2 =
      { document_validator := true, credit_score_agent := true
        property_valuation_agent := true, eligibility_agent := true
        approval_recommender := true, finalize_status := p0.finalize_status } := by
  obtain ⟨a1, a2, a3, a4, -, -, -, -⟩ := trace_profile oc ad dp p0
  have h0 : (traceAt oc ad dp p0 1).2.2 =
      initial_active.foldl (fun acc m => progressEffect m acc) p0 :=
    step_progress oc (traceAt oc ad dp p0 0)
  have h1 : (traceAt oc ad dp p0 2).2.2 =
      initial_active.foldl (fun acc m => progressEffect m acc)
        (traceAt oc ad dp p0 1).2.2 := by
    have := step_progress oc (traceAt oc ad dp p0 1)
    rw [a1] at this
    exact this
  have h2 : (traceAt oc ad dp p0 3).2.2 =
      progressEffect .eligibility_agent (traceAt oc ad dp p0 2).2.2 := by
    have := step_progress oc (traceAt oc ad dp p0 2)
    rw [a2] at this
    exact this
  have h3 : (traceAt oc ad dp p0 4).2.2 =
      progressEffect .approval_recommender (traceAt oc ad dp p0 3).2.2 := by
    have := step_progress oc (traceAt oc ad dp p0 3)
    rw [a3] at this
    exact this
  have h4 : (traceAt oc ad dp p0 5).2.2 = (traceAt oc ad dp p0 4).2.2 := by
    have := step_progress oc (traceAt oc ad dp p0 4)
    rw [a4] at this
    exact this
  rw [h4, h3, h2, h1, h0]
  rfl

/-- Concrete collaborators used by the witness runs: Textract finds nothing,
parsing fails, the credit call raises, no ML model is loaded and the
Bedrock call raises. -/
def oc0 : Oracles :=
  { text :=
      { search := fun _ _ => none
        parseInt := fun _ => .error "invalid literal for int"
        parseFloat := fun _ => .error "could not convert string to float"
        parseDateYear := fun _ => none
        nowYear := 2025
        analyze := fun _ => [] }
    credit := .error "bureau unreachable"
    ml := { predictVal := none, training_accuracy := none }
    recApi := .error "api down" }

/- ===================== C3 ===================== -/

/-- C3 (confirmed): the proceed predicate answers continue exactly when all
three fan-out result slots are populated (error dicts included, since every
produced dict is non-empty and hence truthy), its only answers are continue
and wait, whenever the eligibility node is scheduled in a run the state it
will read has all three slots populated, and the run always goes on to
schedule the finalizer (an upstream failure never aborts the workflow). -/
theorem eligibility_gate_barrier :
    (∀ s : WState, should_proceed_to_eligibility s = "continue" ↔
      (s.document_validation_result.isSome = true ∧
       s.credit_score_result.isSome = true ∧
       s.property_valuation_result.isSome = true)) ∧
    (∀ s : WState, should_proceed_to_eligibility s = "continue" ∨
      should_proceed_to_eligibility s = "wait") ∧
    (∀ (oc : Oracles) (ad : Option ApplicantFields)
       (dp : List (String × String)) (p0 : Progress) (i : Nat),
       Node.eligibility_agent ∈ (traceAt oc ad dp p0 i).1 →
       ((traceAt oc ad dp p0 i).2.1.document_validation_result.isSome = true ∧
        (traceAt oc ad dp p0 i).2.1.credit_score_result.isSome = true ∧
        (traceAt oc ad dp p0 i).2.1.property_valuation_result.isSome = true)) ∧
    (∀ (oc : Oracles) (ad : Option ApplicantFields)
       (dp : List (String × String)) (p0 : Progress),
       (traceAt oc ad dp p0 4).1 = [Node.finalize_status]) := by
  refine ⟨?_, ?_, ?_, ?_⟩
  · intro s
    unfold should_proceed_to_eligibility
    constructor
    · intro h
      by_contra hall
      simp only [not_and_or] at hall
      rcases hall with h1 | h1 | h1 <;> simp [Bool.not_eq_true] at h1 <;>
        simp [h1] at h
    · intro ⟨h1, h2, h3⟩
      simp [h1, h2, h3]
  · intro s
    unfold should_proceed_to_eligibility
    split_ifs <;> simp
  · intro oc ad dp p0 i h
    obtain ⟨a1, a2, a3, a4, a5, hgate, -, -⟩ := trace_profile oc ad dp p0
    rcases i with _ | _ | _ | _ | _ | n
    · simp [traceAt, initial_active] at h
    · rw [a1] at h
      simp [initial_active] at h
    · exact hgate
    · rw [a3] at h
      simp at h
    · rw [a4] at h
      simp at h
    · rw [trace_done oc ad dp p0 (n + 5) (by omega)] at h
      simp at h
  · intro oc ad dp p0
    exact (trace_profile oc ad dp p0).2.2.2.1

/-- Witness for C3: in a concrete run the eligibility node is scheduled in
superstep 2 and the three fan-out slots are populated there. -/
theorem eligibility_gate_barrier_witness :
    (traceAt oc0 none [] Progress.allFalse 2).2.1.document_validation_result.isSome = true ∧
    (traceAt oc0 none [] Progress.allFalse 2).2.1.credit_score_result.isSome = true ∧
    (traceAt oc0 none [] Progress.allFalse 2).2.1.property_valuation_result.isSome = true :=
  eligibility_gate_barrier.2.2.1 oc0 none [] Progress.allFalse 2 (by decide)

/- ===================== C4 ===================== -/

/-- C4 counterexample: in a concrete run the document-validator work
function executes twice (supersteps 0 and 1), so exactly-once execution
fails. -/
theorem fanout_double_execution :
    (executed_nodes oc0 none [] Progress.allFalse 5).count Node.document_validator = 2 := by
  decide

/-- C4 amended: per run, eligibility, recommendation and finalize each
execute exactly once, but each of the three fan-out stages executes exactly
twice: in the first superstep every fan-out conditional edge sees only its
own task's writes, routes wait back to its own node, and the three stages
are re-executed once before the settled state routes to eligibility. -/
theorem stage_execution_counts :
    ∀ (oc : Oracles) (ad : Option ApplicantFields)
      (dp : List (String × String)) (p0 : Progress),
      executed_nodes oc ad dp p0 5 =
        [.document_validator, .credit_score_agent, .property_valuation_agent,
         .document_validator, .credit_score_agent, .property_valuation_agent,
         .eligibility_agent, .approval_recommender, .finalize_status] ∧
      (∀ i, 5 ≤ i → (traceAt oc ad dp p0 i).1 = []) ∧
      (executed_nodes oc ad dp p0 5).count Node.document_validator = 2 ∧
      (executed_nodes oc ad dp p0 5).count Node.credit_score_agent = 2 ∧
      (executed_nodes oc ad dp p0 5).count Node.property_valuation_agent = 2 ∧
      (executed_nodes oc ad dp p0 5).count Node.eligibility_agent = 1 ∧
      (executed_nodes oc ad dp p0 5).count Node.approval_recommender = 1 ∧
      (executed_nodes oc ad dp p0 5).count Node.finalize_status = 1 := by
  intro oc ad dp p0
  obtain ⟨a1, a2, a3, a4, a5, -, -, -⟩ := trace_profile oc ad dp p0
  have hlist : executed_nodes oc ad dp p0 5 =
      [.document_validator, .credit_score_agent, .property_valuation_agent,
       .document_validator, .credit_score_agent, .property_valuation_agent,
       .eligibility_agent, .approval_recommender, .finalize_status] := by
    have hr : List.range 5 = [0, 1, 2, 3, 4] := rfl
    unfold executed_nodes
    rw [hr]
    simp only [List.flatMap_cons, List.flatMap_nil, List.append_nil]
    rw [a1, a2, a3, a4]
    rfl
  refine ⟨hlist, trace_done oc ad dp p0, ?_, ?_, ?_, ?_, ?_, ?_⟩ <;>
    rw [hlist] <;> decide

/-- Witness for C4 amended at a concrete run (including emptiness of the
active set after the finalizer). -/
theorem stage_execution_counts_witness :
    executed_nodes oc0 none [] Progress.allFalse 5 =
      [.document_validator, .credit_score_agent, .property_valuation_agent,
       .document_validator, .credit_score_agent, .property_valuation_agent,
       .eligibility_agent, .approval_recommender, .finalize_status] ∧
    (traceAt oc0 none [] Progress.allFalse 6).1 = [] :=
  ⟨(stage_execution_counts oc0 none [] Progress.allFalse).1,
   (stage_execution_counts oc0 none [] Progress.allFalse).2.1 6 (by decide)⟩

/- ===================== C6 ===================== -/

/-- C6 (confirmed): every progress mutation only flips flags from false to
true, and along any run the snapshots get_progress returns are monotone:
once a stage reads complete at superstep i it still reads complete at every
later superstep j. -/
theorem progress_monotone :
    (∀ (n : Node) (p : Progress), Progress.le p (progressEffect n p)) ∧
    (∀ (name : String) (p : Progress), Progress.le p (update_progress name p)) ∧
    (∀ (oc : Oracles) (ad : Option ApplicantFields)
       (dp : List (String × String)) (p0 : Progress) (i j : Nat), i ≤ j →
       Progress.le (traceAt oc ad dp p0 i).2.2 (traceAt oc ad dp p0 j).2.2) :=
  ⟨progressEffect_le, update_progress_le, fun oc ad dp p0 => trace_progress_le oc ad dp p0⟩

/-- Witness for C6 at a concrete run and the pair of supersteps 1 and 5. -/
theorem progress_monotone_witness :
    Progress.le (traceAt oc0 none [] Progress.allFalse 1).2.2
      (traceAt oc0 none [] Progress.allFalse 5).2.2 :=
  progress_monotone.2.2 oc0 none [] Progress.allFalse 1 5 (by decide)





/-- Projection of the final progress out of a graph-running invocation. -/
theorem run_workflow_progress_eq (o : Orchestrator) (oc : Oracles)
    (ad : Option ApplicantFields) (dp : List (String × String)) (P : Progress)
    (h : (traceAt oc ad dp o.progress 5).2.2 = P) :
    (run_workflow o oc none ad dp).2.progress = P := by
  unfold run_workflow
  generalize traceAt oc ad dp o.progress 5 = T at h ⊢
  exact h

/-- Projection of the final status out of a graph-running invocation. -/
theorem run_workflow_status_cases (o : Orchestrator) (oc : Oracles)
    (ad : Option ApplicantFields) (dp : List (String × String))
    (h : (traceAt oc ad dp o.progress 5).2.1.workflow_status = "failed" ∨
         (traceAt oc ad dp o.progress 5).2.1.workflow_status = "partial_success" ∨
         (traceAt oc ad dp o.progress 5).2.1.workflow_status = "success") :
    (run_workflow o oc none ad dp).1.status = "failed" ∨
    (run_workflow o oc none ad dp).1.status = "partial_success" ∨
    (run_workflow o oc none ad dp).1.status = "success" := by
  unfold run_workflow
  generalize traceAt oc ad dp o.progress 5 = T at h ⊢
  exact h

/-- The per-stage snapshot of a graph-running invocation is fully settled. -/
theorem run_workflow_results_settled (o : Orchestrator) (oc : Oracles)
    (ad : Option ApplicantFields) (dp : List (String × String))
    (hd : (traceAt oc ad dp o.progress 5).2.1.document_validation_result.isSome = true)
    (hc : (traceAt oc ad dp o.progress 5).2.1.credit_score_result.isSome = true)
    (hp : (traceAt oc ad dp o.progress 5).2.1.property_valuation_result.isSome = true)
    (he : (traceAt oc ad dp o.progress 5).2.1.eligibility_result.isSome = true)
    (hr : (traceAt oc ad dp o.progress 5).2.1.approval_recommendation.isSome = true) :
    ∃ r, (run_workflow o oc none ad dp).1.results = some r ∧
      r.document_validation.isSome = true ∧
      r.credit_score.isSome = true ∧
      r.property_valuation.isSome = true ∧
      r.eligibility.isSome = true ∧
      r.approval_recommendation.isSome = true := by
  unfold run_workflow
  generalize traceAt oc ad dp o.progress 5 = T at hd hc hp he hr ⊢
  exact ⟨_, rfl, hd, hc, hp, he, hr⟩

/- ===================== C7 ===================== -/

/-- C7 counterexample: run a fresh orchestrator to completion; the instance
progress handed to the next run_workflow call still has the
document-validator flag true, so the second run does not begin with a fresh
all-false Progress map. -/
theorem progress_not_reset_between_runs :
    (run_workflow Orchestrator.new oc0 none none []).2.progress.document_validator = true ∧
    (run_workflow Orchestrator.new oc0 none none []).2.progress ≠ Progress.allFalse := by
  decide

/-- C7 amended: run_workflow builds a fresh WorkflowState on every
invocation, but it never resets the instance Progress map: the run's
progress trace starts from the instance's current flags (only __init__ and
reset_progress produce the all-false map), and a completed run leaves the
five stage flags true while finalize_status is never flipped — so a second
run on the same instance starts with the five stage flags still true
instead of a fresh all-false map. -/
theorem run_workflow_progress_persistence :
    ∀ (o : Orchestrator) (oc : Oracles) (ad : Option ApplicantFields)
      (dp : List (String × String)),
      initial_state ad dp =
        { applicant_data := ad, document_paths := dp
          credit_score_result := none, document_validation_result := none
          property_valuation_result := none, eligibility_result := none
          approval_recommendation := none, workflow_status := "started"
          doc_errors := [], prop_errors := [], elig_errors := [], rec_errors := [] } ∧
      (run_workflow o oc none ad dp).2.progress = (traceAt oc ad dp o.progress 5).2.2 ∧
      Orchestrator.new.progress = Progress.allFalse ∧
      (reset_progress o).progress = Progress.allFalse ∧
      (run_workflow o oc none ad dp).2.progress =
        { document_validator := true, credit_score_agent := true
          property_valuation_agent := true, eligibility_agent := true
          approval_recommender := true
          finalize_status := o.progress.finalize_status } := by
  intro o oc ad dp
  exact ⟨rfl, run_workflow_progress_eq o oc ad dp _ rfl, rfl, rfl,
    run_workflow_progress_eq o oc ad dp _ (run_progress_final oc ad dp o.progress)⟩

/- ===================== C9 ===================== -/

/-- C9 (confirmed): a wholesale scheduler-level exception of app.invoke is
returned as a top-level error status with a message, no per-stage results
and the exception as the error list; on every invocation in which the graph
itself runs, the returned snapshot carries the full per-stage breakdown
(all five slots populated, whatever the collaborators did) and one of the
three finalizer statuses — per-stage exceptions are consumed inside the
node wrappers and never abort the run. -/
theorem run_workflow_error_isolation :
    ∀ (o : Orchestrator) (oc : Oracles) (ad : Option ApplicantFields)
      (dp : List (String × String)),
      (∀ e, run_workflow o oc (some e) ad dp =
        ({ status := "error"
           message := some ("Workflow execution failed: " ++ e)
           results := none, errors := [e] }, o)) ∧
      ((run_workflow o oc none ad dp).1.status = "failed" ∨
       (run_workflow o oc none ad dp).1.status = "partial_success" ∨
       (run_workflow o oc none ad dp).1.status = "success") ∧
      (∃ r, (run_workflow o oc none ad dp).1.results = some r ∧
        r.document_validation.isSome = true ∧
        r.credit_score.isSome = true ∧
        r.property_valuation.isSome = true ∧
        r.eligibility.isSome = true ∧
        r.approval_recommendation.isSome = true) := by
  intro o oc ad dp
  obtain ⟨-, -, -, -, -, -, hsettled, hstatus⟩ := trace_profile oc ad dp o.progress
  refine ⟨fun e => rfl, ?_, ?_⟩
  · exact run_workflow_status_cases o oc ad dp hstatus
  · exact run_workflow_results_settled o oc ad dp hsettled.1 hsettled.2.1
      hsettled.2.2.1 hsettled.2.2.2.1 hsettled.2.2.2.2

/- ===================== C5 ===================== -/

/-- The ML-model state of an agent for which no pickled model was found. -/
def mlUnavailable : MLState := { predictVal := none, training_accuracy := none }

/-- C5 counterexample: with the model unavailable and a property-details
input whose size_sqft is missing (prepared as 0.0), the rule-based fallback
divides by zero while computing the price per square foot; predict returns
an error dict instead of a rule-based valuation. -/
theorem valuation_zero_sqft_crash :
    predict mlUnavailable ({} : PropertyDetails) =
      .error "Property valuation failed: ZeroDivisionError: float division by zero" := by
  rfl

/-- C5 amended: whenever the ML path is unavailable or raises, predict falls
back to the rule-based valuation and — provided the prepared size_sqft is
non-zero — returns a success dict whose method field is Rule-Based, whose
model accuracy is null and whose confidence is 0.75; when size_sqft is zero
the fallback itself raises ZeroDivisionError and predict returns an error
dict. -/
theorem valuation_fallback_rule_based :
    ∀ (ml : MLState) (pd : PropertyDetails),
      (ml.predictVal = none ∨
       ∃ f e, ml.predictVal = some f ∧
         f (prepare_property_data pd) = .error e) →
      (prepare_property_data pd).size_sqft ≠ 0 →
      ∃ r, predict ml pd = .success r (prepare_property_data pd) ∧
        r.valuation_method = "Rule-Based" ∧
        r.model_accuracy = none ∧
        r.confidence_score = 3/4 := by
  intro ml pd hml hsz
  obtain ⟨r, hr, hm, ha, hc⟩ : ∃ r,
      rule_based_valuation (prepare_property_data pd) = .ok r ∧
      r.valuation_method = "Rule-Based" ∧ r.model_accuracy = none ∧
      r.confidence_score = 3/4 := by
    unfold rule_based_valuation
    rw [if_neg hsz]
    exact ⟨_, rfl, rfl, rfl, rfl⟩
  have hpv : predict_property_value ml (prepare_property_data pd) = .ok r := by
    unfold predict_property_value
    rcases hml with h | ⟨f, e, hf, he⟩
    · simp only [h, hr]
    · simp only [hf, he, hr]
  refine ⟨r, ?_, hm, ha, hc⟩
  unfold predict
  simp only [hpv]

/-- Witness for C5 amended: a salaried-housing example with a 1000 sqft
apartment in Mumbai and the model unavailable. -/
def c5Details : PropertyDetails :=
  { city := some "Mumbai", property_type := some "Apartment"
    size_sqft := some 1000, age_years := some 10, floor_number := some 2 }

/-- Witness for C5 amended at a concrete input. -/
theorem valuation_fallback_rule_based_witness :
    ∃ r, predict mlUnavailable c5Details = .success r (prepare_property_data c5Details) ∧
      r.valuation_method = "Rule-Based" ∧
      r.model_accuracy = none ∧
      r.confidence_score = 3/4 :=
  valuation_fallback_rule_based mlUnavailable c5Details (Or.inl rfl)
    (by norm_num [prepare_property_data, c5Details])

/- ===================== C8 ===================== -/

/-- Text environment for the C8 counterexample: the Textract call for the
document returns one non-LINE block, so extraction sees a non-empty
response in which no text line matches anything. -/
def c8Env : TextEnv :=
  { search := fun _ _ => none
    parseInt := fun _ => .error "invalid literal for int"
    parseFloat := fun _ => .error "could not convert string to float"
    parseDateYear := fun _ => none
    nowYear := 2025
    analyze := fun _ =>
      [{ id := "b1", blockType := "KEY_VALUE_SET", entityTypes := some ["KEY"]
         relationships := none, text := "" }] }

/-- A non-empty documents input: a single Aadhaar card. -/
def c8App : ApplicationData :=
  { documents := some [{ docType := "Aadhaar", path := "s3://docs/aadhaar.png" }]
    details := {} }

/-- C8 counterexample: on a NON-EMPTY documents list whose Textract response
has no line matching the applicant name, the Aadhaar extractor calls
.upper() on None, the exception propagates out of run, and
validate_documents returns an error-status dict — not a Success result with
an embedded report. -/
theorem validate_documents_extraction_exception :
    c8App.documents = some [{ docType := "Aadhaar", path := "s3://docs/aadhaar.png" }] ∧
    validate_documents c8Env c8App =
      .errorRes "Document validation failed: AttributeError: NoneType object has no attribute upper" := by
  exact ⟨rfl, rfl⟩

/-- C8 amended: validate_documents returns the missing-documents error dict
exactly on an absent or empty documents list; on a non-empty list it
returns Success (with status success or partial_success, carrying the
embedded pass/fail report) whenever run completes, but an exception raised
inside run — e.g. an expected text absent from a document's blocks during
field extraction — is caught and returned as an error-status dict rather
than as report content.  A Textract call that fails wholesale (run sees no
blocks) is still reported as content: run completes and records a Failed
entry for that document. -/
theorem validate_documents_behavior :
    ∀ (env : TextEnv) (app : ApplicationData),
      ((app.documents = none ∨ app.documents = some []) →
        validate_documents env app = .errorRes "Required documents not provided") ∧
      (∀ docs, app.documents = some docs → docs ≠ [] →
        (∀ out, docRun env docs app.details = .ok out →
          validate_documents env app =
            .okRes (if out.validation_report.overall_status = "Success" then "success"
                    else "partial_success") out) ∧
        (∀ e, docRun env docs app.details = .error e →
          validate_documents env app = .errorRes ("Document validation failed: " ++ e))) ∧
      (∀ d : DocumentItem, env.analyze d.path = [] →
        ∃ out, docRun env [d] app.details = .ok out ∧
          out.document_results =
            [{ document_type := d.docType, status := "Failed"
               message := "Failed to analyze document" }]) := by
  intro env app
  refine ⟨?_, ?_, ?_⟩
  · rintro (h | h) <;> rw [validate_documents, h]
  · intro docs hdocs hne
    constructor
    · intro out hout
      rw [validate_documents, hdocs]
      cases docs with
      | nil => exact absurd rfl hne
      | cons d rest => simp only [hout]
    · intro e he
      rw [validate_documents, hdocs]
      cases docs with
      | nil => exact absurd rfl hne
      | cons d rest => simp only [he]
  · intro d hd
    have hloop : runExtractLoop env app.details [d] [] [] =
        .ok ([(d.docType, .errorE ("Failed to analyze document at " ++ d.path ++ "."))],
          [{ document_type := d.docType, status := "Failed"
             message := "Failed to analyze document" }]) := by
      unfold runExtractLoop
      simp only [hd]
      rfl
    unfold docRun
    rw [hloop]
    exact ⟨_, rfl, rfl⟩

/-- Text environment whose Textract call never yields blocks. -/
def c8EnvEmpty : TextEnv := { c8Env with analyze := fun _ => [] }

/-- An application payload with the documents key absent. -/
def c8AppNone : ApplicationData := { documents := none, details := {} }

/-- Witness for C8 amended: the missing-documents error on an absent
documents key, and a wholesale Textract failure reported as content. -/
theorem validate_documents_behavior_witness :
    validate_documents c8EnvEmpty c8AppNone =
      .errorRes "Required documents not provided" ∧
    (∃ out, docRun c8EnvEmpty [{ docType := "PAN", path := "x.png" }] c8AppNone.details =
        .ok out ∧
      out.document_results =
        [{ document_type := "PAN", status := "Failed"
           message := "Failed to analyze document" }]) :=
  ⟨(validate_documents_behavior c8EnvEmpty c8AppNone).1 (Or.inl rfl),
   (validate_documents_behavior c8EnvEmpty c8AppNone).2.2
     { docType := "PAN", path := "x.png" } rfl⟩

end HomeLoan
